import Mathlib

/-!
Verification of the tides-api harmonic prediction core.

The Go sources are shallowly embedded:
* `time.Time` and `time.Duration` are integer nanosecond counts (`Int`), as in Go;
  `Duration.Hours()` is real division by the nanoseconds-per-hour constant.
* float64 arithmetic is modelled with exact reals (`ℝ`).
* Go interfaces with a fixed method set become structures of functions.
* fallible Go functions (returning `error`) become `Except String` or `Option`.
-/

namespace Tides

/-- Nanoseconds per hour: Go `time.Duration` counts nanoseconds, `time.Hour = 3.6e12`. -/
def nsPerHour : Int := 3600000000000

/-- Go `d.Hours()` for a duration of `d` nanoseconds. -/
noncomputable def durationHours (d : Int) : ℝ := (d : ℝ) / (nsPerHour : ℝ)

/-- Go `domain.Deg2Rad`: `deg * math.Pi / 180.0`. -/
noncomputable def deg2Rad (deg : ℝ) : ℝ := deg * Real.pi / 180

/-- Go `domain.Rad2Deg`: `rad * 180.0 / math.Pi`. -/
noncomputable def rad2Deg (rad : ℝ) : ℝ := rad * 180 / Real.pi

/-- Go `domain.ConstituentParam`. -/
structure ConstituentParam where
  name : String
  amplitudeM : ℝ
  phaseDeg : ℝ
  speedDegPerHr : ℝ

/-- Go `domain.TideLevel`: a time (ns) and a height (m). -/
structure TideLevel where
  time : Int
  heightM : ℝ

instance : Inhabited TideLevel := ⟨⟨0, 0⟩⟩

/-- Go `domain.NodalCorrection` interface: `GetFactors` returns `(f, u)`,
`GetEquilibriumArgument` returns `V` in degrees. -/
structure NodalCorrection where
  getFactors : String → ℝ → ℝ × ℝ
  getEquilibriumArgument : String → ℝ → ℝ

/-- Go `domain.IdentityNodalCorrection`: `f = 1`, `u = 0`, `V = 0`. -/
def identityNodalCorrection : NodalCorrection :=
  ⟨fun _ _ => (1, 0), fun _ _ => 0⟩

/-- Go `domain.PhaseConvention` (`PhaseConvFESGreenwich` = 0, `PhaseConvVu` = 1). -/
inductive PhaseConvention where
  | fesGreenwich
  | vu
deriving DecidableEq

/-- Go `domain.PredictionParams`.  The Go field `NodalCorrection` is an interface value
that may be `nil`, modelled as an `Option`. -/
structure PredictionParams where
  constituents : List ConstituentParam
  msl : ℝ
  longitude : ℝ
  nodalCorrection : Option NodalCorrection
  referenceTime : Int
  phaseConvention : PhaseConvention

/-- Go `domain.CalculateTideHeight` (tide.go).  A `nil` nodal-correction provider is
replaced by the identity provider; the height starts at `MSL` and each constituent adds
`f * A * cos(deg2Rad(phaseAngleDeg))`, where the phase angle in degrees depends on the
convention (the Go `switch` treats every value other than `PhaseConvFESGreenwich`
via the default `V + u` branch). -/
noncomputable def calculateTideHeight (t : Int) (params : PredictionParams) : ℝ :=
  let nodal := params.nodalCorrection.getD identityNodalCorrection
  let deltaHours := durationHours (t - params.referenceTime)
  params.constituents.foldl (fun height c =>
    let fu := nodal.getFactors c.name deltaHours
    let phaseAngleDeg :=
      match params.phaseConvention with
      | PhaseConvention.fesGreenwich =>
          c.speedDegPerHr * deltaHours - c.phaseDeg + params.longitude + fu.2
      | PhaseConvention.vu =>
          c.speedDegPerHr * deltaHours +
            nodal.getEquilibriumArgument c.name deltaHours + fu.2 - c.phaseDeg
    height + fu.1 * c.amplitudeM * Real.cos (deg2Rad phaseAngleDeg)) params.msl

/-- The per-constituent summand of the Greenwich-convention formula as the spec writes
it: `f_k * A_k * cos(deg2rad(omega_k * dt - phi_k + longitude + u_k))`. -/
noncomputable def specGreenwichTerm (nodal : NodalCorrection) (longitude dt : ℝ)
    (c : ConstituentParam) : ℝ :=
  (nodal.getFactors c.name dt).1 * c.amplitudeM *
    Real.cos (deg2Rad (c.speedDegPerHr * dt - c.phaseDeg + longitude +
      (nodal.getFactors c.name dt).2))

/-- Concrete single-constituent parameters used to witness claim C1: speed 90 deg/hr
(period 4 h), amplitude 1 m, phase 0, identity nodal correction, MSL 0, longitude 0. -/
def exampleC1Constituent : ConstituentParam :=
  ⟨"M2", 1, 0, 90⟩

/-- Concrete prediction parameters for the C1 witness. -/
def exampleC1Params : PredictionParams :=
  ⟨[exampleC1Constituent], 0, 0, some identityNodalCorrection, 0,
    PhaseConvention.fesGreenwich⟩

/-- The loop variable of Go `GeneratePredictions` after `n` iterations of
`for t := start; !t.After(end); t = t.Add(interval)`. -/
def loopTime (start interval : Int) (n : Nat) : Int := start + n * interval

/-- The continuation guard of that loop: `!t.After(end)`, i.e. `t ≤ end`. -/
def loopGuard (endT t : Int) : Bool := decide (t ≤ endT)

/-- The Go loop of `GeneratePredictions`, which is total only for a positive
`interval` (claim C10); well-founded recursion on the remaining time. -/
noncomputable def genAux (endT interval : Int) (hpos : 0 < interval)
    (params : PredictionParams) (t : Int) : List TideLevel :=
  if t ≤ endT then
    ⟨t, calculateTideHeight t params⟩ :: genAux endT interval hpos params (t + interval)
  else []
termination_by (endT + interval - t).toNat
decreasing_by simp_wf; omega

/-- Go `domain.GeneratePredictions`.  The Go function performs no interval check and
its loop diverges for `interval ≤ 0` (claim C10); the embedding returns `[]` on that
domain, which the prediction use case's validation makes unreachable. -/
noncomputable def generatePredictions (start endT interval : Int)
    (params : PredictionParams) : List TideLevel :=
  if hpos : 0 < interval then genAux endT interval hpos params start else []

/-- Go `domain.Extrema`. -/
structure Extrema where
  highs : List TideLevel
  lows : List TideLevel

/-- The interior loop of Go `domain.FindExtrema`
(`for i := 1; i < len-1; i++` comparing `predictions[i]` with its neighbours),
phrased as a sliding-window recursion: the window `(p0, p1, p2)` corresponds to
`(predictions[i-1], predictions[i], predictions[i+1])`.  The Go conditions are
`curr > prev && curr > next` for a high and `curr < prev && curr < next` for a low. -/
noncomputable def findExtremaAux : List TideLevel → List TideLevel × List TideLevel
  | p0 :: p1 :: p2 :: rest =>
    let e := findExtremaAux (p1 :: p2 :: rest)
    (if p0.heightM < p1.heightM ∧ p2.heightM < p1.heightM then p1 :: e.1 else e.1,
     if p1.heightM < p0.heightM ∧ p1.heightM < p2.heightM then p1 :: e.2 else e.2)
  | _ => ([], [])

/-- Go `domain.FindExtrema`: fewer than 3 samples yield empty extrema, otherwise the
interior samples are scanned against both neighbours. -/
noncomputable def findExtrema (ps : List TideLevel) : Extrema :=
  if ps.length < 3 then ⟨[], []⟩
  else ⟨(findExtremaAux ps).1, (findExtremaAux ps).2⟩

/-- A single-condition sliding-window scan, used to analyse `findExtremaAux`. -/
noncomputable def windowScan (cond : TideLevel → TideLevel → TideLevel → Bool) :
    List TideLevel → List TideLevel
  | p0 :: p1 :: p2 :: rest =>
    if cond p0 p1 p2 then p1 :: windowScan cond (p1 :: p2 :: rest)
    else windowScan cond (p1 :: p2 :: rest)
  | _ => []

/-- The claim's strict-local-maximum window condition `h[i-1] < h[i] > h[i+1]`. -/
noncomputable def strictHighCond (a b c : TideLevel) : Bool :=
  decide (a.heightM < b.heightM ∧ c.heightM < b.heightM)

/-- The claim's strict-local-minimum window condition `h[i-1] > h[i] < h[i+1]`. -/
noncomputable def strictLowCond (a b c : TideLevel) : Bool :=
  decide (b.heightM < a.heightM ∧ b.heightM < c.heightM)

/-- Index `i` is reported by a window condition: `i` is interior
(`0 < i` and `i + 1 < length`) and the condition holds on `(p[i-1], p[i], p[i+1])`. -/
noncomputable def idxCond (cond : TideLevel → TideLevel → TideLevel → Bool)
    (ps : List TideLevel) (i : Nat) : Bool :=
  decide (0 < i) && decide (i + 1 < ps.length) &&
    cond (ps.getD (i - 1) default) (ps.getD i default) (ps.getD (i + 1) default)

/-- The samples at the reported interior indices, in index order: the claim's
"sample `i` is reported exactly when it is interior and the strict neighbour
comparison holds". -/
noncomputable def idxExtremaSpec (cond : TideLevel → TideLevel → TideLevel → Bool)
    (ps : List TideLevel) : List TideLevel :=
  ((List.range ps.length).filter (idxCond cond ps)).map (fun i => ps.getD i default)

/-- Go float64-to-int64 conversion (used by `time.Duration(x)`): truncation toward
zero. -/
noncomputable def goTruncToInt (x : ℝ) : Int := if 0 ≤ x then ⌊x⌋ else ⌈x⌉

/-- The finite-difference parabola coefficient `a` of Go `RefineExtremum`:
`(h2 - 2*h1 + h0) / (2 * dt1 * dt1)`. -/
noncomputable def parabolaA (before peak after : TideLevel) : ℝ :=
  (after.heightM - 2 * peak.heightM + before.heightM) /
    (2 * durationHours (peak.time - before.time) *
      durationHours (peak.time - before.time))

/-- The finite-difference parabola coefficient `b` of Go `RefineExtremum`:
`(h2 - h0) / (2 * dt1)`. -/
noncomputable def parabolaB (before peak after : TideLevel) : ℝ :=
  (after.heightM - before.heightM) / (2 * durationHours (peak.time - before.time))

/-- The parabola vertex offset `-b / (2a)` of Go `RefineExtremum` (hours from the
discrete peak). -/
noncomputable def vertexOffset (before peak after : TideLevel) : ℝ :=
  -parabolaB before peak after / (2 * parabolaA before peak after)

/-- Go `domain.RefineExtremum`: parabolic refinement of a discrete extremum through
its two neighbours, falling back to the discrete peak on non-uniform spacing
(tolerance 1e-6 h), negligible curvature (`|a| < 1e-10`) or a vertex offset of more
than one sample interval. -/
noncomputable def refineExtremum (before peak after : TideLevel) : Int × ℝ :=
  let dt1 := durationHours (peak.time - before.time)
  let dt2 := durationHours (after.time - peak.time)
  if |dt1 - dt2| > 1e-6 then (peak.time, peak.heightM)
  else
    let a := parabolaA before peak after
    let b := parabolaB before peak after
    if |a| < 1e-10 then (peak.time, peak.heightM)
    else
      let dtVertex := vertexOffset before peak after
      if |dtVertex| > dt1 then (peak.time, peak.heightM)
      else (peak.time + goTruncToInt (dtVertex * (nsPerHour : ℝ)),
        peak.heightM + b * dtVertex + a * dtVertex * dtVertex)

/-- Concrete sample triple for the C5 witness: one-hour spacing, heights 0, 1, 0. -/
def exampleC5Before : TideLevel := ⟨0, 0⟩

/-- Peak sample of the C5 witness triple. -/
def exampleC5Peak : TideLevel := ⟨nsPerHour, 1⟩

/-- Trailing sample of the C5 witness triple. -/
def exampleC5After : TideLevel := ⟨2 * nsPerHour, 0⟩

/-- Go `interp.GridCell`: cell boundaries and the four corner values
(`v00` at `(x0,y0)`, `v10` at `(x1,y0)`, `v01` at `(x0,y1)`, `v11` at `(x1,y1)`). -/
structure GridCell where
  x0 : ℝ
  x1 : ℝ
  y0 : ℝ
  y1 : ℝ
  v00 : ℝ
  v10 : ℝ
  v01 : ℝ
  v11 : ℝ

/-- The bilinear blend of Go `interp.BilinearInterpolate` before clamping:
`(1-t)(1-u)·v00 + t(1-u)·v10 + (1-t)u·v01 + tu·v11` with
`t = (x-x0)/(x1-x0)`, `u = (y-y0)/(y1-y0)`. -/
noncomputable def blendFormula (x0 x1 y0 y1 v00 v10 v01 v11 x y : ℝ) : ℝ :=
  let t := (x - x0) / (x1 - x0)
  let u := (y - y0) / (y1 - y0)
  (1 - t) * (1 - u) * v00 + t * (1 - u) * v10 + (1 - t) * u * v01 + t * u * v11

/-- Go `interp.BilinearInterpolate`: cell validation, in-cell check with tolerance
1e-9, clamping of the unit-square coordinates into `[0,1]`, then the bilinear blend.
Go formats coordinate values into its error strings; the embedding keeps fixed
messages. -/
noncomputable def bilinearInterpolate (cell : GridCell) (x y : ℝ) : Except String ℝ :=
  if cell.x1 ≤ cell.x0 then Except.error "invalid grid cell: X1 must be > X0"
  else if cell.y1 ≤ cell.y0 then Except.error "invalid grid cell: Y1 must be > Y0"
  else if x < cell.x0 - 1e-9 ∨ x > cell.x1 + 1e-9 then
    Except.error "x coordinate is outside grid cell"
  else if y < cell.y0 - 1e-9 ∨ y > cell.y1 + 1e-9 then
    Except.error "y coordinate is outside grid cell"
  else
    let t := max 0 (min 1 ((x - cell.x0) / (cell.x1 - cell.x0)))
    let u := max 0 (min 1 ((y - cell.y0) / (cell.y1 - cell.y0)))
    Except.ok ((1 - t) * (1 - u) * cell.v00 + t * (1 - u) * cell.v10 +
      (1 - t) * u * cell.v01 + t * u * cell.v11)

/-- Go `interp.Grid2D`: `values[i][j]` corresponds to `(x[j], y[i])`. -/
structure Grid2D where
  x : List ℝ
  y : List ℝ
  values : List (List ℝ)

/-- Go `Grid2D.Validate`: at least 2 points per axis, row/column counts matching the
axis lengths, both axes strictly increasing (the Go index loops checking
`X[i] <= X[i-1]` are the negation of `Chain' (· < ·)`). -/
noncomputable def Grid2D.validate (g : Grid2D) : Except String Unit :=
  if g.x.length < 2 then Except.error "grid must have at least 2 X coordinates"
  else if g.y.length < 2 then Except.error "grid must have at least 2 Y coordinates"
  else if g.values.length ≠ g.y.length then
    Except.error "number of value rows must match Y coordinates"
  else if g.values.any (fun row => row.length ≠ g.x.length) then
    Except.error "row has wrong number of values"
  else if ¬ List.Chain' (· < ·) g.x then
    Except.error "X coordinates must be strictly increasing"
  else if ¬ List.Chain' (· < ·) g.y then
    Except.error "Y coordinates must be strictly increasing"
  else Except.ok ()

/-- The linear bracketing-cell scan of Go `Grid2D.InterpolateAt`: the first index `i`
with `coords[i] ≤ v ≤ coords[i+1]`, `none` when no cell contains `v`
(Go returns `-1` and errors). -/
noncomputable def findCellIdx (coords : List ℝ) (v : ℝ) : Option Nat :=
  (List.range (coords.length - 1)).find? (fun i =>
    decide (coords.getD i 0 ≤ v) && decide (v ≤ coords.getD (i + 1) 0))

/-- Go `Grid2D.InterpolateAt`: validate, locate the bracketing cell on each axis,
and bilinearly interpolate the four corner values of that cell. -/
noncomputable def Grid2D.interpolateAt (g : Grid2D) (x y : ℝ) : Except String ℝ :=
  match g.validate with
  | Except.error e => Except.error e
  | Except.ok _ =>
    match findCellIdx g.x x with
    | none => Except.error "x coordinate is outside grid range"
    | some xIdx =>
      match findCellIdx g.y y with
      | none => Except.error "y coordinate is outside grid range"
      | some yIdx =>
        bilinearInterpolate
          ⟨g.x.getD xIdx 0, g.x.getD (xIdx + 1) 0,
           g.y.getD yIdx 0, g.y.getD (yIdx + 1) 0,
           (g.values.getD yIdx []).getD xIdx 0,
           (g.values.getD yIdx []).getD (xIdx + 1) 0,
           (g.values.getD (yIdx + 1) []).getD xIdx 0,
           (g.values.getD (yIdx + 1) []).getD (xIdx + 1) 0⟩ x y

/-- Concrete 3×3 grid used to witness claim C6. -/
def exampleGrid : Grid2D :=
  ⟨[0, 1, 2], [0, 1, 2], [[1, 2, 3], [4, 5, 6], [7, 8, 9]]⟩

/-- Go `math.Mod(x, m)`: the truncated-division remainder `x - m * trunc(x/m)`
(the result carries the sign of `x`). -/
noncomputable def goMod (x m : ℝ) : ℝ := x - m * ((goTruncToInt (x / m) : ℤ) : ℝ)

/-- Go `normalizeLon360` (identical in fes/netcdf.go and bathymetry/local.go):
`lon = math.Mod(lon, 360); if lon < 0 { lon += 360 }`. -/
noncomputable def normalizeLon360 (lon : ℝ) : ℝ :=
  if goMod lon 360 < 0 then goMod lon 360 + 360 else goMod lon 360

/-- Go `lonAxisRequiresWrap` (bathymetry/local.go): take the first and last axis
values, swap them into (min, max) order, and require `min ≥ 0 && max > 180`;
an empty axis yields false. -/
noncomputable def lonAxisRequiresWrap (lons : List ℝ) : Bool :=
  if lons.isEmpty then false
  else
    decide (0 ≤ (if lons.getD 0 0 > lons.getD (lons.length - 1) 0
        then lons.getD (lons.length - 1) 0 else lons.getD 0 0) ∧
      180 < (if lons.getD 0 0 > lons.getD (lons.length - 1) 0
        then lons.getD 0 0 else lons.getD (lons.length - 1) 0))

/-- Go `normalizeLonForAxis` (bathymetry/local.go): wrap exactly when the axis
requires it. -/
noncomputable def normalizeLonForAxis (lons : List ℝ) (lon : ℝ) : ℝ :=
  if lonAxisRequiresWrap lons then normalizeLon360 lon else lon

/-- Endpoints of a `[0, 360)`-convention longitude axis, for the C7 witness. -/
def exampleLonAxis : List ℝ := [0, 350]

/-- Two-argument arctangent, Go `math.Atan2(y, x)`: the argument of `x + y·i`. -/
noncomputable def atan2 (y x : ℝ) : ℝ := Complex.arg ⟨x, y⟩

/-- Go `domain.NonlinearSpec`: `f`/`u` given by a magnitude+phase pair of sine/cosine
series in `N` (radians).  Go keys the JSON maps by the harmonic index as a string
parsed with `strconv.Atoi`; the embedding keys by the parsed integer. -/
structure NonlinearSpec where
  term1Sin : List (Int × ℝ)
  term2Const : ℝ
  term2Cos : List (Int × ℝ)

/-- `term1 = Σ aₖ·sin(k·N)` of Go `EvalNonlinear` and the built-in path
(`N` in radians). -/
noncomputable def NonlinearSpec.term1 (s : NonlinearSpec) (nrad : ℝ) : ℝ :=
  (s.term1Sin.map (fun kv => kv.2 * Real.sin ((kv.1 : ℝ) * nrad))).sum

/-- `term2 = b₀ + Σ bₖ·cos(k·N)` of Go `EvalNonlinear` and the built-in path. -/
noncomputable def NonlinearSpec.term2 (s : NonlinearSpec) (nrad : ℝ) : ℝ :=
  s.term2Const + (s.term2Cos.map (fun kv => kv.2 * Real.cos ((kv.1 : ℝ) * nrad))).sum

/-- Go `domain.NodalCoeff`: Fourier series coefficients in `N` (degrees) for `f` and
`u`, an optional equilibrium-argument constant `V0`, and an optional nonlinear spec. -/
structure NodalCoeff where
  name : String
  f0 : ℝ
  u0 : ℝ
  v0 : ℝ
  fCos : List (Int × ℝ)
  fSin : List (Int × ℝ)
  uCos : List (Int × ℝ)
  uSin : List (Int × ℝ)
  nonlinear : Option NonlinearSpec

/-- The Fourier series of Go `NodalCoeff.EvalF` before its zero fixup:
`F0 + Σ aₖ·cos(deg2Rad(k·N)) + Σ bₖ·sin(deg2Rad(k·N))`. -/
noncomputable def NodalCoeff.evalFSeries (c : NodalCoeff) (ndeg : ℝ) : ℝ :=
  c.f0 + (c.fCos.map (fun kv => kv.2 * Real.cos (deg2Rad ((kv.1 : ℝ) * ndeg)))).sum
    + (c.fSin.map (fun kv => kv.2 * Real.sin (deg2Rad ((kv.1 : ℝ) * ndeg)))).sum

/-- Go `NodalCoeff.EvalF`: the Fourier series with `0` mapped to `1`. -/
noncomputable def NodalCoeff.evalF (c : NodalCoeff) (ndeg : ℝ) : ℝ :=
  if c.evalFSeries ndeg = 0 then 1 else c.evalFSeries ndeg

/-- Go `NodalCoeff.EvalU`: `U0 + Σ aₖ·cos(deg2Rad(k·N)) + Σ bₖ·sin(deg2Rad(k·N))`. -/
noncomputable def NodalCoeff.evalU (c : NodalCoeff) (ndeg : ℝ) : ℝ :=
  c.u0 + (c.uCos.map (fun kv => kv.2 * Real.cos (deg2Rad ((kv.1 : ℝ) * ndeg)))).sum
    + (c.uSin.map (fun kv => kv.2 * Real.sin (deg2Rad ((kv.1 : ℝ) * ndeg)))).sum

/-- Go `NodalCoeff.EvalNonlinear`: `(sqrt(t1² + t2²), Rad2Deg(atan2(t1, t2)))` when a
nonlinear spec is present. -/
noncomputable def NodalCoeff.evalNonlinear (c : NodalCoeff) (ndeg : ℝ) :
    Option (ℝ × ℝ) :=
  match c.nonlinear with
  | none => none
  | some s =>
    let nrad := deg2Rad ndeg
    some (Real.sqrt (s.term1 nrad * s.term1 nrad + s.term2 nrad * s.term2 nrad),
      rad2Deg (atan2 (s.term1 nrad) (s.term2 nrad)))

/-- Go `domain.NodalCoeffSet`; `ByName` is a map built from the `coeffs` slice
(names assumed distinct, as in the shipped tables). -/
structure NodalCoeffSet where
  coeffs : List NodalCoeff

/-- Lookup in the `ByName` map of a coefficient set. -/
noncomputable def NodalCoeffSet.byName (s : NodalCoeffSet) (name : String) :
    Option NodalCoeff :=
  s.coeffs.find? (fun c => c.name == name)

/-- Go `domain.AstronomicalArguments`. -/
structure AstronomicalArguments where
  N : ℝ
  p : ℝ
  ps : ℝ
  I : ℝ
  nu : ℝ
  xi : ℝ

/-- Go `calculateAstronomicalArguments` (nodal.go): Schureman polynomials in Julian
centuries from J2000.0, normalized into `[0, 360)`, with the lunar-orbit inclination
and nutation derived by `arccos`/`arcsin`. -/
noncomputable def calculateAstronomicalArguments (t : ℝ) : AstronomicalArguments :=
  let daysFromUnix := t / 24
  let daysFromJ2000 := daysFromUnix - 10957.5
  let tc := daysFromJ2000 / 36525
  let n0 := 125.04452 - 1934.136261 * tc + 0.0020708 * tc * tc + tc * tc * tc / 450000
  let p0 := 83.35324 + 4069.01363 * tc - 0.0103238 * tc * tc - tc * tc * tc / 80053
  let ps0 := 282.94 + 1.7192 * tc
  let n1 := goMod n0 360
  let nn := if n1 < 0 then n1 + 360 else n1
  let p1 := goMod p0 360
  let pp := if p1 < 0 then p1 + 360 else p1
  let ps1 := goMod ps0 360
  let pps := if ps1 < 0 then ps1 + 360 else ps1
  let ii := Real.arccos (0.91370 - 0.03569 * Real.cos (deg2Rad nn))
  let iDeg := rad2Deg ii
  let nuRad := Real.arcsin (0.08978 * Real.sin (deg2Rad nn) / Real.sin ii)
  let nuDeg := rad2Deg nuRad
  ⟨nn, pp, pps, iDeg, nuDeg, nn - 2 * nuDeg⟩

/-- Go `builtInNonlinearCoeffs` (nodal.go): pyTMD-derived sine/cosine series for the
8 major constituents (`N` in radians). -/
noncomputable def builtInNonlinearCoeffs (name : String) : Option NonlinearSpec :=
  if name = "M2" then
    some ⟨[(1, -0.03731), (2, 0.00052)], 1, [(1, -0.03731), (2, 0.00052)]⟩
  else if name = "S2" then some ⟨[(1, 0.00225)], 1, [(1, 0.00225)]⟩
  else if name = "N2" then
    some ⟨[(1, -0.03731), (2, 0.00052)], 1, [(1, -0.03731), (2, 0.00052)]⟩
  else if name = "K2" then
    some ⟨[(1, -0.3108), (2, -0.0324)], 1, [(1, 0.2852), (2, 0.0324)]⟩
  else if name = "K1" then
    some ⟨[(1, -0.1554), (2, 0.0029)], 1, [(1, 0.1158), (2, -0.0029)]⟩
  else if name = "O1" then
    some ⟨[(1, 0.189), (2, -0.0058)], 1, [(1, 0.189), (2, -0.0058)]⟩
  else if name = "P1" then some ⟨[(1, -0.0112)], 1, [(1, -0.0112)]⟩
  else if name = "Q1" then some ⟨[(1, 0.1886)], 1, [(1, 0.1886)]⟩
  else none

/-- The hand-coded closed-form factor formulas of nodal.go (`getM2Factors` …
`getQ1Factors`) followed by the identity default, i.e. the Go `switch` at the end of
`GetFactors`. -/
noncomputable def getFactorsClosedForm (name : String)
    (args : AstronomicalArguments) : ℝ × ℝ :=
  if name = "M2" then
    (1, -2.1 * Real.sin (deg2Rad args.I) * Real.sin (deg2Rad args.I))
  else if name = "S2" then (1, 0)
  else if name = "N2" then
    (1, -2.1 * Real.sin (deg2Rad args.I) * Real.sin (deg2Rad args.I))
  else if name = "K2" then
    (1, rad2Deg (atan2 (0.1689 * Real.sin (2 * deg2Rad args.I))
      (0.2523 + 0.1689 * Real.cos (deg2Rad args.I))))
  else if name = "K1" then
    (1, -8.86 * Real.sin (deg2Rad args.nu) + 0.68 * Real.sin (2 * deg2Rad args.nu))
  else if name = "O1" then
    (1, 10.8 * Real.sin (deg2Rad args.nu) - 1.3 * Real.sin (2 * deg2Rad args.nu))
  else if name = "P1" then (1, 0)
  else if name = "Q1" then
    (1, 10.8 * Real.sin (deg2Rad args.nu) - 1.3 * Real.sin (2 * deg2Rad args.nu))
  else (1, 0)

/-- The built-in fallback of Go `GetFactors`: the pyTMD nonlinear series if the
constituent is among the built-in 8, otherwise the hand-coded `switch`. -/
noncomputable def getFactorsBuiltin (name : String)
    (args : AstronomicalArguments) : ℝ × ℝ :=
  match builtInNonlinearCoeffs name with
  | some spec =>
    let nrad := deg2Rad args.N
    (Real.sqrt (spec.term1 nrad * spec.term1 nrad + spec.term2 nrad * spec.term2 nrad),
      rad2Deg (atan2 (spec.term1 nrad) (spec.term2 nrad)))
  | none => getFactorsClosedForm name args

/-- Go `domain.AstronomicalNodalCorrection`: an optional externally loaded
coefficient set. -/
structure AstronomicalNodalCorrection where
  coeffs : Option NodalCoeffSet

/-- Go `AstronomicalNodalCorrection.GetFactors` (nodal.go): external coefficients
first (nonlinear spec, then linear Fourier series, each with the `f = 0 → 1` fixup),
then the built-in nonlinear table, then the closed-form `switch`, then identity. -/
noncomputable def AstronomicalNodalCorrection.getFactors
    (nc : AstronomicalNodalCorrection) (constituent : String) (t : ℝ) : ℝ × ℝ :=
  let args := calculateAstronomicalArguments t
  match nc.coeffs with
  | some set =>
    match set.byName constituent with
    | some c =>
      match c.evalNonlinear args.N with
      | some fu => (if fu.1 = 0 then 1 else fu.1, fu.2)
      | none =>
        let f := c.evalF args.N
        (if f = 0 then 1 else f, c.evalU args.N)
    | none => getFactorsBuiltin constituent args
  | none => getFactorsBuiltin constituent args

/-- External coefficient entry used to witness C9: an `f` series that is identically
zero (`F0 = 0`, no series terms) and `U0 = 5`. -/
def exampleC9Coeff : NodalCoeff := ⟨"X1", 0, 5, 0, [], [], [], [], none⟩

/-- Coefficient set for the C9 witness. -/
def exampleC9Set : NodalCoeffSet := ⟨[exampleC9Coeff]⟩

/-- Astronomical nodal correction with external coefficients for the C9 witness. -/
def exampleC9NC : AstronomicalNodalCorrection := ⟨some exampleC9Set⟩

/-- Go `strings.Contains`: `sub` is a prefix of some suffix of `s`. -/
def containsSubstr (s sub : String) : Bool :=
  (List.range (s.toList.length + 1)).any
    (fun i => sub.toList.isPrefixOf (s.toList.drop i))

/-- Go `strings.ToLower` restricted to the ASCII file paths in play. -/
def toLowerStr (s : String) : String := String.mk (s.toList.map Char.toLower)

/-- A combined FES NetCDF file as seen by the request path: 1D coordinate arrays, a
2D data array per variable in `[lat, lon]` order (the `[lon, lat]` order is
transposed into this layout by `readSubset2x2`), and an optional `_FillValue`. -/
structure NetCDFGridFile where
  lats : List ℝ
  lons : List ℝ
  values : List (List ℝ)
  fillValue : Option ℝ

/-- Which data variable `interpolatePointFromNetCDF` is asked for (Go passes the
configured variable name, "amplitude" or "phase"). -/
inductive FesVarKind where
  | amplitude
  | phase
deriving DecidableEq

/-- The `for left < right-1` binary-search loop of Go `findGridCell`. -/
noncomputable def findGridCellLoop (coords : List ℝ) (v : ℝ)
    (left right : Nat) : Nat :=
  if left < right - 1 then
    let mid := (left + right) / 2
    if coords.getD mid 0 ≤ v then findGridCellLoop coords v mid right
    else findGridCellLoop coords v left mid
  else left
termination_by right - left
decreasing_by
  all_goals simp_wf
  all_goals omega

/-- Go `findGridCell` (fes/netcdf.go): `-1` (here `none`) for fewer than 2 points or
a value outside `[coords[0], coords[n-1]]`, otherwise the lower index of the
bracketing cell found by binary search. -/
noncomputable def findGridCell (coords : List ℝ) (v : ℝ) : Option Nat :=
  if coords.length < 2 then none
  else if v < coords.getD 0 0 ∨ v > coords.getD (coords.length - 1) 0 then none
  else some (findGridCellLoop coords v 0 (coords.length - 1))

/-- The 2×2 window `data[latIdx..latIdx+1][lonIdx..lonIdx+1]` read by Go
`readSubset2x2` (index validity is checked by the caller model below). -/
noncomputable def readSubset2x2 (values : List (List ℝ)) (latIdx lonIdx : Nat) :
    List (List ℝ) :=
  [[(values.getD latIdx []).getD lonIdx 0, (values.getD latIdx []).getD (lonIdx + 1) 0],
   [(values.getD (latIdx + 1) []).getD lonIdx 0,
    (values.getD (latIdx + 1) []).getD (lonIdx + 1) 0]]

/-- The 2×2 bilinear blend of Go fes `bilinearInterpolate` (no clamping):
rows are latitudes, columns longitudes. -/
noncomputable def fesBilinear2x2 (lat0 lat1 lon0 lon1 : ℝ) (values : List (List ℝ))
    (lat lon : ℝ) : ℝ :=
  let dx := (lon - lon0) / (lon1 - lon0)
  let dy := (lat - lat0) / (lat1 - lat0)
  let v00 := (values.getD 0 []).getD 0 0
  let v01 := (values.getD 0 []).getD 1 0
  let v10 := (values.getD 1 []).getD 0 0
  let v11 := (values.getD 1 []).getD 1 0
  (1 - dx) * (1 - dy) * v00 + dx * (1 - dy) * v01 + (1 - dx) * dy * v10 + dx * dy * v11

/-- The pure core of Go `interpolatePointFromNetCDF` (fes/netcdf.go) on the
simple-variable path: locate the bracketing cell on both coordinate axes, read the
2×2 window, replace `_FillValue` entries by 0, divide an amplitude from an
`ocean_tide` path by 100 (cm → m), and bilinearly interpolate.  File opening and
variable-name probing are assumed to succeed; the real/imaginary fallback applies the
same `ocean_tide` division after `hypot`/`atan2`. -/
noncomputable def interpolatePointFromNetCDF (path : String) (kind : FesVarKind)
    (file : NetCDFGridFile) (lat lon : ℝ) : Except String ℝ :=
  match findGridCell file.lats lat, findGridCell file.lons lon with
  | some latIdx, some lonIdx =>
    if latIdx ≥ file.lats.length - 1 ∨ lonIdx ≥ file.lons.length - 1 then
      Except.error "invalid indices"
    else
      let w0 := readSubset2x2 file.values latIdx lonIdx
      let w1 := match file.fillValue with
        | some fv => w0.map (fun row => row.map (fun x => if x = fv then 0 else x))
        | none => w0
      let isAmp : Bool := match kind with
        | FesVarKind.amplitude => true
        | FesVarKind.phase => false
      let w2 := if isAmp && containsSubstr (toLowerStr path) "ocean_tide" then
          w1.map (fun row => row.map (fun x => x / 100))
        else w1
      Except.ok (fesBilinear2x2 (file.lats.getD latIdx 0) (file.lats.getD (latIdx + 1) 0)
        (file.lons.getD lonIdx 0) (file.lons.getD (lonIdx + 1) 0) w2 lat lon)
  | _, _ => Except.error "point outside grid bounds"

/-- Go `interpolateConstituentAtPoint` (fes/netcdf.go) for a combined
`ocean_tide`-style file (the first matching candidate for both amplitude and phase):
normalize the longitude, interpolate amplitude and phase, then divide the amplitude
by 100 once more ("Convert cm to meters"). -/
noncomputable def interpolateConstituentAtPoint (ampPath phaPath : String)
    (ampFile phaFile : NetCDFGridFile) (lat lon : ℝ) : Except String (ℝ × ℝ) :=
  let normLon := normalizeLon360 lon
  match interpolatePointFromNetCDF ampPath FesVarKind.amplitude ampFile lat normLon with
  | Except.error e => Except.error e
  | Except.ok amplitude =>
    match interpolatePointFromNetCDF phaPath FesVarKind.phase phaFile lat normLon with
    | Except.error e => Except.error e
    | Except.ok phase => Except.ok (amplitude / 100, phase)

/-- Combined `ocean_tide` file for C2: a 2×2 grid whose stored amplitude is 100
(centimeters) everywhere. -/
def exampleFesFile : NetCDFGridFile := ⟨[35, 36], [139, 140], [[100, 100], [100, 100]], none⟩

/-- Go `domain.LocationMetadata`. -/
structure LocationMetadata where
  msl : ℝ
  depthM : Option ℝ
  datumName : String
  sourceName : String

/-- Go `usecase.PredictionRequest` (times and the interval in nanoseconds). -/
structure PredictionRequest where
  lat : Option ℝ
  lon : Option ℝ
  stationID : Option String
  start : Int
  endT : Int
  interval : Int
  datum : String
  source : String
  datumOffsetM : Option ℝ
  timezone : String
  phaseConvention : String

/-- Go `PredictionRequest.Validate` (predict.go): mutually exclusive selectors,
coordinate ranges, `start < end`, interval within `[1 min, 6 h]`, duration at most
365 days, and at most 10000 points (`int(duration / interval)`, nonnegative here so
truncated and euclidean division agree). -/
noncomputable def PredictionRequest.validate (r : PredictionRequest) :
    Except String Unit :=
  let hasLatLon := r.lat.isSome && r.lon.isSome
  let hasStationID := match r.stationID with
    | some s => !(s == "")
    | none => false
  if !hasLatLon && !hasStationID then
    Except.error "either lat/lon or station_id must be provided"
  else if hasLatLon && hasStationID then
    Except.error "lat/lon and station_id are mutually exclusive"
  else if hasLatLon && decide (r.lat.getD 0 < -90 ∨ r.lat.getD 0 > 90) then
    Except.error "latitude must be between -90 and 90"
  else if hasLatLon && decide (r.lon.getD 0 < -180 ∨ r.lon.getD 0 > 180) then
    Except.error "longitude must be between -180 and 180"
  else if !decide (r.start < r.endT) then
    Except.error "start time must be before end time"
  else if r.interval < 60000000000 then
    Except.error "interval must be at least 1 minute"
  else if r.interval > 21600000000000 then
    Except.error "interval must be at most 6 hours"
  else if r.endT - r.start > 31536000000000000 then
    Except.error "time range must be at most 365 days"
  else if (r.endT - r.start) / r.interval > 10000 then
    Except.error "too many prediction points"
  else Except.ok ()

/-- Go `datumOffsetEntry` (predict.go). -/
structure DatumOffsetEntry where
  name : String
  lat : ℝ
  lon : ℝ
  offsetM : ℝ

/-- `math.MaxFloat64`, the initial best distance of `getAutoDatumOffset`. -/
noncomputable def maxFloat64 : ℝ := 1.7976931348623157e308

/-- Go `haversineKm` (predict.go). -/
noncomputable def haversineKm (lat1 lon1 lat2 lon2 : ℝ) : ℝ :=
  let toRad := fun x : ℝ => x * Real.pi / 180
  let dLat := toRad (lat2 - lat1)
  let dLon := toRad (lon2 - lon1)
  let a := Real.sin (dLat / 2) * Real.sin (dLat / 2) +
    Real.cos (toRad lat1) * Real.cos (toRad lat2) *
      Real.sin (dLon / 2) * Real.sin (dLon / 2)
  6371.0 * (2 * atan2 (Real.sqrt a) (Real.sqrt (1 - a)))

/-- Go `getAutoDatumOffset` (predict.go), with the lazily loaded table passed in:
nearest entry by great-circle distance, applied only within 80 km. -/
noncomputable def getAutoDatumOffset (table : List DatumOffsetEntry) (lat lon : ℝ) :
    Option ℝ :=
  if table.isEmpty then none
  else
    let r := table.foldl (fun acc e =>
      let d := haversineKm lat lon e.lat e.lon
      if d < acc.1 then (d, e.offsetM) else acc) (maxFloat64, 0)
    if r.1 ≤ 80 then some r.2 else none

/-- Go `roundToDecimal` (predict.go): `float64(int(val*1000 + 0.5)) / 1000`. -/
noncomputable def roundToDecimal (val : ℝ) : ℝ :=
  ((goTruncToInt (val * 1000 + 0.5) : ℤ) : ℝ) / 1000

/-- The index lookup through the Go `predMap` of `RefineExtrema`: the map is built
in index order, so a duplicated time keeps the last index. -/
noncomputable def predIndexOf (predictions : List TideLevel) (t : Int) : Option Nat :=
  ((List.range predictions.length).reverse).find?
    (fun i => decide ((predictions.getD i default).time = t))

/-- One refinement step of Go `RefineExtrema`: out-of-map or boundary indices keep
the original extremum. -/
noncomputable def refineOne (predictions : List TideLevel) (h : TideLevel) :
    TideLevel :=
  match predIndexOf predictions h.time with
  | none => h
  | some idx =>
    if idx < 1 ∨ idx ≥ predictions.length - 1 then h
    else
      let r := refineExtremum (predictions.getD (idx - 1) default)
        (predictions.getD idx default) (predictions.getD (idx + 1) default)
      ⟨r.1, r.2⟩

/-- Go `domain.RefineExtrema`: refine every extremum through its neighbours and
re-sort each list chronologically (Go uses an unstable `sort.Slice` with
`Time.Before`; any sorted order of the same multiset is produced, modelled by
merge sort on times). -/
noncomputable def refineExtrema (predictions : List TideLevel) (extrema : Extrema) :
    Extrema :=
  if predictions.length < 3 then extrema
  else
    ⟨(extrema.highs.map (refineOne predictions)).mergeSort
        (fun a b => decide (a.time ≤ b.time)),
     (extrema.lows.map (refineOne predictions)).mergeSort
        (fun a b => decide (a.time ≤ b.time))⟩

/-- Go `NewAstronomicalNodalCorrection` packaged as the `NodalCorrection` interface
value `Execute` passes to synthesis (the equilibrium argument comes from the
coefficient table's `V0`, else 0). -/
noncomputable def astroNodalCorrection (coeffs : Option NodalCoeffSet) :
    NodalCorrection :=
  ⟨fun name t => AstronomicalNodalCorrection.getFactors ⟨coeffs⟩ name t,
   fun name _ =>
    match coeffs with
    | some set =>
      match set.byName name with
      | some c => c.v0
      | none => 0
    | none => 0⟩

/-- The FES reference epoch of `Execute`: 2012-01-01 00:00:00 UTC in ns. -/
def fesRefTimeNs : Int := 1325376000000000000

/-- Go `usecase.PredictionPoint`: Go formats the instant as an RFC3339 string in the
requested timezone; the embedding keeps the instant itself. -/
structure PredictionPoint where
  time : Int
  heightM : ℝ
  depthM : Option ℝ

/-- Go `usecase.ExtremaResponse`. -/
structure ExtremaResponse where
  highs : List PredictionPoint
  lows : List PredictionPoint

/-- Go `usecase.PredictionResponse`; `meta` is the key/value map as an association
list (the numeric formatting of `datum_offset_m` is abstracted to an empty value). -/
structure PredictionResponse where
  source : String
  datum : String
  timezone : String
  constituents : List String
  predictions : List PredictionPoint
  extrema : ExtremaResponse
  msl : Option ℝ
  seabedDepth : Option ℝ
  meta : List (String × String)

/-- The collaborators of `PredictionUseCase.Execute`: the station (CSV) and location
(FES) constituent loaders, the optional bathymetry store, the optional external
nodal-coefficient set, and the datum-offset table. -/
structure ExecEnv where
  loadForStation : String → Except String (List ConstituentParam)
  loadForLocation : ℝ → ℝ → Except String (List ConstituentParam)
  bathymetry : Option (ℝ → ℝ → Except String (Option LocationMetadata))
  astroCoeffs : Option NodalCoeffSet
  datumOffsets : List DatumOffsetEntry

/-- The metadata lookup of `Execute`: only for lat/lon requests with a configured
bathymetry store; a store error is logged and treated as no metadata. -/
noncomputable def resolveMetadata (env : ExecEnv) (req : PredictionRequest) :
    Option LocationMetadata :=
  match req.lat, req.lon, env.bathymetry with
  | some la, some lo, some f =>
    match f la lo with
    | Except.error _ => none
    | Except.ok m => m
  | _, _, _ => none

/-- The response-building tail of Go `Execute` after constituents are loaded: MSL
from metadata plus explicit or auto datum offset, phase convention and reference
epoch by source, synthesis, extrema detection and refinement, rounding, water-depth
enrichment, and response assembly. -/
noncomputable def executeRest (env : ExecEnv) (req : PredictionRequest)
    (source : String) (constituents : List ConstituentParam)
    (metadata : Option LocationMetadata) : PredictionResponse :=
  let msl0 := match metadata with
    | some m => m.msl
    | none => 0
  let msl := match req.datumOffsetM with
    | some off => msl0 + off
    | none =>
      match req.lat, req.lon with
      | some la, some lo =>
        match getAutoDatumOffset env.datumOffsets la lo with
        | some off => msl0 + off
        | none => msl0
      | _, _ => msl0
  let lon := req.lon.getD 0
  let phaseConv := if req.phaseConvention = "vu" ∨ req.phaseConvention = "VU"
    then PhaseConvention.vu else PhaseConvention.fesGreenwich
  let refTime : Int := if source = "fes" then fesRefTimeNs else 0
  let params : PredictionParams :=
    ⟨constituents, msl, lon, some (astroNodalCorrection env.astroCoeffs),
      refTime, phaseConv⟩
  let predictions := generatePredictions req.start req.endT req.interval params
  let ext := refineExtrema predictions (findExtrema predictions)
  let tzLabel := if req.timezone = "jst" ∨ req.timezone = "JST"
    then "+09:00" else "+00:00"
  let mkPoint := fun (p : TideLevel) =>
    (⟨p.time, roundToDecimal p.heightM,
      match metadata with
      | some m =>
        match m.depthM with
        | some d => some (roundToDecimal (d + msl + p.heightM))
        | none => none
      | none => none⟩ : PredictionPoint)
  ⟨source,
   (if req.datum = "" then "MSL" else req.datum),
   tzLabel,
   constituents.map (fun c => c.name),
   predictions.map mkPoint,
   ⟨ext.highs.map mkPoint, ext.lows.map mkPoint⟩,
   (match metadata with
    | some m => if m.msl ≠ 0 then some m.msl else none
    | none => none),
   (match metadata with
    | some m => m.depthM
    | none => none),
   [("model", "harmonic_v0")]
     ++ (match metadata with
         | some m =>
           (if m.datumName ≠ "" then [("datum_name", m.datumName)] else [])
             ++ (if m.sourceName ≠ "" then [("metadata_source", m.sourceName)] else [])
         | none => [])
     ++ [("attribution", if source = "csv"
          then "Mock CSV (for dev). Replace with FES later."
          else "FES2014/2022 tidal model")]
     ++ (match req.datumOffsetM with
         | some _ => [("datum_offset_m", "")]
         | none => [])⟩

/-- Go `PredictionUseCase.Execute` (predict.go): validation, source selection with
mutual-exclusion errors, fatal constituent loading, non-fatal metadata, then the
response tail. -/
noncomputable def execute (env : ExecEnv) (req : PredictionRequest) :
    Except String PredictionResponse :=
  match req.validate with
  | Except.error e => Except.error ("invalid request: " ++ e)
  | Except.ok _ =>
    match req.stationID with
    | some sid =>
      if req.source = "fes" then
        Except.error "FES source does not support station_id - use lat/lon instead"
      else
        match env.loadForStation sid with
        | Except.error e =>
          Except.error ("failed to load constituents for station: " ++ e)
        | Except.ok constituents =>
          Except.ok (executeRest env req "csv" constituents
            (resolveMetadata env req))
    | none =>
      if req.source = "csv" then
        Except.error "CSV source does not support lat/lon - use station_id instead"
      else
        match env.loadForLocation (req.lat.getD 0) (req.lon.getD 0) with
        | Except.error e =>
          Except.error ("failed to load constituents for location: " ++ e)
        | Except.ok constituents =>
          Except.ok (executeRest env req "fes" constituents
            (resolveMetadata env req))

/-- The depth part of Go `LocalStore.GetMetadata`: a failed depth interpolation
leaves the metadata unchanged; a negative elevation is exposed as positive depth;
the source name reflects which grids contributed. -/
noncomputable def applyDepth (m : LocationMetadata) (depthGrid : Option Grid2D)
    (lat lon : ℝ) : LocationMetadata :=
  match depthGrid with
  | none => m
  | some g =>
    match g.interpolateAt (normalizeLonForAxis g.x lon) lat with
    | Except.error _ => m
    | Except.ok depth =>
      ⟨m.msl,
       (if depth < 0 then some (-depth) else m.depthM),
       m.datumName,
       (if m.sourceName = "DTU21 MSS" then "GEBCO 2025 + DTU21 MSS"
        else "GEBCO 2025")⟩

/-- Go `LocalStore.GetMetadata` given the loaded grid state (the subset loading and
±2°-margin caching is I/O): no grids yields `none`; a failed MSL interpolation
(e.g. out of grid bounds) returns `(nil, nil)`, i.e. `ok none`; otherwise the MSL is
geoid-corrected when a geoid sampler is configured and succeeds, and depth is
added when available. -/
noncomputable def getMetadata (mslGrid depthGrid : Option Grid2D)
    (geoid : Option (ℝ → ℝ → Except String ℝ)) (lat lon : ℝ) :
    Except String (Option LocationMetadata) :=
  match mslGrid, depthGrid with
  | none, none => Except.ok none
  | _, _ =>
    match mslGrid with
    | some g =>
      match g.interpolateAt (normalizeLonForAxis g.x lon) lat with
      | Except.error _ => Except.ok none
      | Except.ok msl0 =>
        let corrected := match geoid with
          | some gh =>
            match gh lat lon with
            | Except.ok n => (msl0 - n, "EGM2008 (geoid-corrected)")
            | Except.error _ => (msl0, "EGM2008")
          | none => (msl0, "EGM2008")
        Except.ok (some (applyDepth
          ⟨corrected.1, none, corrected.2, "DTU21 MSS"⟩ depthGrid lat lon))
    | none =>
      Except.ok (some (applyDepth
        ⟨0, none, "EGM2008", "Local/GCS FUSE"⟩ depthGrid lat lon))

/-- Concrete lat/lon request for the C8 witness: one hour at 10-minute intervals. -/
def exampleC8Req : PredictionRequest :=
  ⟨some 35, some 139.5, none, 0, 3600000000000, 600000000000, "", "", none, "", ""⟩

/-- Concrete station request for the C8 witness of the fatal path. -/
def exampleC8StationReq : PredictionRequest :=
  ⟨none, none, some "TK001", 0, 3600000000000, 600000000000, "", "", none, "", ""⟩

/-- Environment whose station loader fails and whose bathymetry store errors. -/
noncomputable def exampleC8Env : ExecEnv :=
  ⟨fun _ => Except.error "station file missing",
   fun _ _ => Except.ok [exampleC1Constituent],
   some (fun _ _ => Except.error "metadata backend down"),
   none, []⟩

-- ===================================================================
-- Theorems
-- ===================================================================

theorem foldl_add_map {α : Type} (f : α → ℝ) (a : ℝ) (l : List α) :
    l.foldl (fun h c => h + f c) a = a + (l.map f).sum := by
  induction l generalizing a with
  | nil => simp
  | cons x xs ih => simp [ih, add_assoc]

/-- C1: with the Greenwich phase convention, `CalculateTideHeight` is
`MSL + Σ_k f_k·A_k·cos(deg2rad(ω_k·Δt − φ_k + longitude + u_k))` with `Δt` the hours
from the reference time and `(f_k, u_k)` from the nodal-correction provider; and for a
single constituent with phase 0, identity nodal correction, MSL 0 and longitude 0 the
height at the reference time equals the amplitude, at one quarter period (`ω·Δt = 90°`)
it is within 1e-6 of 0, and at half period (`ω·Δt = 180°`) within 1e-6 of minus the
amplitude. -/
theorem calculateTideHeight_greenwich_spec (t : Int) (p : PredictionParams)
    (hconv : p.phaseConvention = PhaseConvention.fesGreenwich) :
    calculateTideHeight t p =
      p.msl + (p.constituents.map
        (specGreenwichTerm (p.nodalCorrection.getD identityNodalCorrection)
          p.longitude (durationHours (t - p.referenceTime)))).sum
    ∧ ∀ c : ConstituentParam, ∀ tq : Int,
        p.constituents = [c] → p.msl = 0 → p.longitude = 0 →
        p.nodalCorrection = some identityNodalCorrection → c.phaseDeg = 0 →
        ((durationHours (tq - p.referenceTime) = 0 →
            calculateTideHeight tq p = c.amplitudeM) ∧
         (c.speedDegPerHr * durationHours (tq - p.referenceTime) = 90 →
            |calculateTideHeight tq p| ≤ 1e-6) ∧
         (c.speedDegPerHr * durationHours (tq - p.referenceTime) = 180 →
            |calculateTideHeight tq p + c.amplitudeM| ≤ 1e-6)) := by
  have hgen : ∀ s : Int, calculateTideHeight s p =
      p.msl + (p.constituents.map
        (specGreenwichTerm (p.nodalCorrection.getD identityNodalCorrection)
          p.longitude (durationHours (s - p.referenceTime)))).sum := by
    intro s
    unfold calculateTideHeight
    rw [hconv]
    exact foldl_add_map _ _ _
  refine ⟨hgen t, ?_⟩
  intro c tq hcs hmsl hlon hnodal hphase
  have hone : calculateTideHeight tq p =
      c.amplitudeM *
        Real.cos (deg2Rad (c.speedDegPerHr * durationHours (tq - p.referenceTime))) := by
    rw [hgen tq, hcs, hmsl, hlon, hnodal]
    simp [specGreenwichTerm, identityNodalCorrection, hphase]
  refine ⟨?_, ?_, ?_⟩
  · intro h0
    rw [hone, h0]
    simp [deg2Rad]
  · intro h90
    rw [hone, h90]
    have : deg2Rad 90 = Real.pi / 2 := by
      unfold deg2Rad; ring
    rw [this, Real.cos_pi_div_two]
    simp
    norm_num
  · intro h180
    rw [hone, h180]
    have : deg2Rad 180 = Real.pi := by
      unfold deg2Rad; ring
    rw [this, Real.cos_pi]
    simp
    norm_num

/-- Witness for C1 at concrete inputs: the example single-constituent parameters at the
reference time give height exactly the amplitude 1. -/
theorem calculateTideHeight_greenwich_spec_witness :
    calculateTideHeight 0 exampleC1Params = 1 := by
  have h := calculateTideHeight_greenwich_spec 0 exampleC1Params rfl
  have h2 := (h.2 exampleC1Constituent 0 rfl rfl rfl rfl rfl).1
    (by simp [durationHours, exampleC1Params])
  simpa [exampleC1Constituent] using h2

theorem genAux_eq_range (endT interval : Int) (hpos : 0 < interval)
    (params : PredictionParams) :
    ∀ n : Nat, ∀ t : Int, t ≤ endT → ((endT - t) / interval).toNat = n →
      genAux endT interval hpos params t =
        (List.range (n + 1)).map (fun k : Nat =>
          ⟨t + k * interval, calculateTideHeight (t + k * interval) params⟩) := by
  have hne : interval ≠ 0 := by omega
  intro n
  induction n with
  | zero =>
    intro t ht hn
    have hd0 : (endT - t) / interval = 0 := by
      have hnn : 0 ≤ (endT - t) / interval := Int.ediv_nonneg (by omega) hpos.le
      omega
    have hlt : endT - t < interval := by
      have hmod := Int.ediv_add_emod (endT - t) interval
      rw [hd0, mul_zero, zero_add] at hmod
      have := Int.emod_lt_of_pos (endT - t) hpos
      omega
    rw [genAux, if_pos ht, genAux, if_neg (by omega)]
    simp [List.range_succ]
  | succ m ih =>
    intro t ht hn
    have hd : (endT - t) / interval = (m : Int) + 1 := by
      have hnn : 0 ≤ (endT - t) / interval := Int.ediv_nonneg (by omega) hpos.le
      omega
    have hstep : t + interval ≤ endT := by
      have hmod := Int.ediv_add_emod (endT - t) interval
      have hmn : 0 ≤ (endT - t) % interval := Int.emod_nonneg _ hne
      have hmul : interval * 1 ≤ interval * ((m : Int) + 1) := by
        have : (1 : Int) ≤ (m : Int) + 1 := by omega
        exact mul_le_mul_of_nonneg_left this hpos.le
      rw [hd] at hmod
      omega
    have hd' : ((endT - (t + interval)) / interval).toNat = m := by
      have : endT - (t + interval) = (endT - t) + (-1) * interval := by ring
      rw [this, Int.add_mul_ediv_right _ _ hne, hd]
      omega
    rw [genAux, if_pos ht, ih (t + interval) hstep hd']
    have hR : List.range (m + 1 + 1) = 0 :: (List.range (m + 1)).map Nat.succ :=
      List.range_succ_eq_map (m + 1)
    rw [hR, List.map_cons, List.map_map]
    congr 1
    · simp
    · apply List.map_congr_left
      intro k _
      simp only [Function.comp_apply]
      push_cast
      rw [show t + interval + (k : Int) * interval = t + ((k : Int) + 1) * interval from
        by ring]

/-- C3: for `start ≤ end` and positive interval, `GeneratePredictions` returns the
finite list whose times are exactly `start + k·interval` for
`k = 0 … (end − start)/interval`; hence the times are strictly increasing, begin at
`start`, advance by exactly the interval, and include both `start` and `end` whenever
`end − start` is an integer multiple of the interval. -/
theorem generatePredictions_times (start endT interval : Int)
    (params : PredictionParams) (hpos : 0 < interval) (hse : start ≤ endT) :
    ((generatePredictions start endT interval params).map TideLevel.time =
      (List.range (((endT - start) / interval).toNat + 1)).map
        (fun k : Nat => start + k * interval))
    ∧ List.Chain' (· < ·)
        ((generatePredictions start endT interval params).map TideLevel.time)
    ∧ ((generatePredictions start endT interval params).map TideLevel.time).head?
        = some start
    ∧ start ∈ (generatePredictions start endT interval params).map TideLevel.time
    ∧ (interval ∣ endT - start →
        endT ∈ (generatePredictions start endT interval params).map TideLevel.time) := by
  have hmain : (generatePredictions start endT interval params).map TideLevel.time =
      (List.range (((endT - start) / interval).toNat + 1)).map
        (fun k : Nat => start + k * interval) := by
    unfold generatePredictions
    rw [dif_pos hpos,
      genAux_eq_range endT interval hpos params (((endT - start) / interval).toNat)
        start hse rfl]
    rw [List.map_map]
    rfl
  refine ⟨hmain, ?_, ?_, ?_, ?_⟩
  · rw [hmain]
    rw [List.chain'_map]
    rw [List.chain'_range_succ]
    intro m _
    have h1 : ((m : Int) + 1) * interval = (m : Int) * interval + interval := by ring
    push_cast
    rw [h1]
    linarith
  · rw [hmain]
    have : (((endT - start) / interval).toNat + 1) = (((endT - start) / interval).toNat) + 1 := rfl
    rw [List.range_succ_eq_map]
    simp
  · rw [hmain]
    refine List.mem_map.mpr ⟨0, ?_, by simp⟩
    simp
  · intro hdvd
    rw [hmain]
    have hq : 0 ≤ (endT - start) / interval := Int.ediv_nonneg (by omega) hpos.le
    refine List.mem_map.mpr ⟨((endT - start) / interval).toNat, by simp, ?_⟩
    have hcast : ((((endT - start) / interval).toNat : Int)) = (endT - start) / interval :=
      Int.toNat_of_nonneg hq
    rw [hcast, Int.ediv_mul_cancel hdvd]
    ring

/-- Witness for C3 at concrete inputs: `start = 0`, `end = 100`, `interval = 30`. -/
theorem generatePredictions_times_witness :
    (generatePredictions 0 100 30 exampleC1Params).map TideLevel.time =
      (List.range ((((100 : Int) - 0) / 30).toNat + 1)).map
        (fun k : Nat => (0 : Int) + k * 30) :=
  (generatePredictions_times 0 100 30 exampleC1Params (by norm_num) (by norm_num)).1

/-- C10: the `GeneratePredictions` loop terminates for every strictly positive
interval (its guard eventually fails), while for `interval ≤ 0` and `start ≤ end` the
guard holds after every number of iterations, so the loop never terminates; a positive
interval is thus a required precondition the function itself does not check. -/
theorem generatePredictions_loop_termination (start endT interval : Int) :
    (0 < interval → ∃ n : Nat, loopGuard endT (loopTime start interval n) = false)
    ∧ (interval ≤ 0 → start ≤ endT →
        ∀ n : Nat, loopGuard endT (loopTime start interval n) = true) := by
  constructor
  · intro hpos
    refine ⟨(endT - start).toNat + 1, ?_⟩
    have hn : (endT - start) + 1 ≤ (((endT - start).toNat + 1 : Nat) : Int) := by
      have := Int.self_le_toNat (endT - start)
      push_cast
      omega
    have hmul : (((endT - start).toNat + 1 : Nat) : Int) * 1 ≤
        (((endT - start).toNat + 1 : Nat) : Int) * interval := by
      apply mul_le_mul_of_nonneg_left (by omega) (by positivity)
    simp only [loopGuard, loopTime, decide_eq_false_iff_not, not_le]
    nlinarith
  · intro hneg hse n
    have hmul : (n : Int) * interval ≤ 0 :=
      mul_nonpos_iff.mpr (Or.inl ⟨by positivity, hneg⟩)
    simp only [loopGuard, loopTime, decide_eq_true_eq]
    omega

/-- Witness for C10 at concrete inputs: with `interval = 3` the guard of the loop from
0 to 10 eventually fails, and with `interval = -2` it still holds after 5 iterations. -/
theorem generatePredictions_loop_termination_witness :
    (∃ n : Nat, loopGuard 10 (loopTime 0 3 n) = false)
    ∧ loopGuard 10 (loopTime 0 (-2) 5) = true :=
  ⟨(generatePredictions_loop_termination 0 10 3).1 (by norm_num),
   (generatePredictions_loop_termination 0 10 (-2)).2 (by norm_num) (by norm_num) 5⟩

theorem findExtremaAux_eq_windowScan (ps : List TideLevel) :
    findExtremaAux ps =
      (windowScan strictHighCond ps, windowScan strictLowCond ps) := by
  induction ps with
  | nil => simp [findExtremaAux, windowScan]
  | cons p0 l ih =>
    cases l with
    | nil => simp [findExtremaAux, windowScan]
    | cons p1 l2 =>
      cases l2 with
      | nil => simp [findExtremaAux, windowScan]
      | cons p2 rest =>
        rw [findExtremaAux, windowScan, windowScan, ih]
        simp [strictHighCond, strictLowCond]

theorem idxExtremaSpec_short (cond : TideLevel → TideLevel → TideLevel → Bool)
    (ps : List TideLevel) (hlen : ps.length < 3) : idxExtremaSpec cond ps = [] := by
  unfold idxExtremaSpec
  rw [List.filter_eq_nil_iff.mpr, List.map_nil]
  intro i hi
  have hi' : i < ps.length := List.mem_range.mp hi
  simp only [idxCond, Bool.and_eq_true, decide_eq_true_eq, not_and]
  intro h0 h1
  omega

theorem idxExtremaSpec_peel (cond : TideLevel → TideLevel → TideLevel → Bool)
    (q : TideLevel) (l : List TideLevel) :
    idxExtremaSpec cond (q :: l) =
      ((List.range l.length).filter (idxCond cond (q :: l) ∘ Nat.succ)).map
        ((fun i => (q :: l).getD i default) ∘ Nat.succ) := by
  unfold idxExtremaSpec
  rw [show (q :: l).length = l.length + 1 from rfl, List.range_succ_eq_map,
    List.filter_cons_of_neg (by simp [idxCond]), List.filter_map, List.map_map]

theorem idxExtremaSpec_cons (cond : TideLevel → TideLevel → TideLevel → Bool)
    (p0 p1 p2 : TideLevel) (rest : List TideLevel) :
    idxExtremaSpec cond (p0 :: p1 :: p2 :: rest) =
      (if cond p0 p1 p2 then [p1] else []) ++ idxExtremaSpec cond (p1 :: p2 :: rest) := by
  rw [idxExtremaSpec_peel cond p0 (p1 :: p2 :: rest),
    idxExtremaSpec_peel cond p1 (p2 :: rest)]
  rw [show (p1 :: p2 :: rest).length = (p2 :: rest).length + 1 from rfl,
    List.range_succ_eq_map, List.filter_cons]
  simp only [Function.comp_apply]
  have hhead : idxCond cond (p0 :: p1 :: p2 :: rest) (Nat.succ 0) = cond p0 p1 p2 := by
    simp only [idxCond, List.length_cons]
    rw [show Nat.succ 0 = 1 from rfl]
    have e1 : decide (0 < 1) = true := by decide
    have e2 : decide (1 + 1 < rest.length + 1 + 1 + 1) = true := by
      simp only [decide_eq_true_eq]
      omega
    rw [e1, e2]
    rfl
  simp only [hhead]
  have hshift : ∀ j : Nat,
      ((idxCond cond (p0 :: p1 :: p2 :: rest) ∘ Nat.succ) ∘ Nat.succ) j =
        (idxCond cond (p1 :: p2 :: rest) ∘ Nat.succ) j := by
    intro j
    show idxCond cond (p0 :: p1 :: p2 :: rest) (j + 1 + 1) =
      idxCond cond (p1 :: p2 :: rest) (j + 1)
    simp only [idxCond, List.length_cons]
    rw [show j + 1 + 1 - 1 = j + 1 from by omega, show j + 1 - 1 = j from by omega]
    simp only [List.getD_cons_succ]
    have e1 : decide (0 < j + 1 + 1) = true := by simp
    have e2 : decide (0 < j + 1) = true := by simp
    have e3 : decide (j + 1 + 1 + 1 < rest.length + 1 + 1 + 1) =
        decide (j + 1 + 1 < rest.length + 1 + 1) := by
      rw [decide_eq_decide]
      omega
    rw [e1, e2, e3]
  have htail : (List.filter (idxCond cond (p0 :: p1 :: p2 :: rest) ∘ Nat.succ)
      (List.map Nat.succ (List.range (p2 :: rest).length))) =
      List.map Nat.succ (List.filter (idxCond cond (p1 :: p2 :: rest) ∘ Nat.succ)
        (List.range (p2 :: rest).length)) := by
    rw [List.filter_map]
    rw [List.filter_congr (fun j _ => hshift j)]
  rw [htail]
  by_cases hc : cond p0 p1 p2 = true
  · rw [if_pos hc, if_pos hc, List.map_cons, List.map_map, List.singleton_append]
    rfl
  · rw [if_neg hc, if_neg hc, List.map_map, List.nil_append]
    rfl

theorem windowScan_eq_idxExtremaSpec
    (cond : TideLevel → TideLevel → TideLevel → Bool) (ps : List TideLevel) :
    windowScan cond ps = idxExtremaSpec cond ps := by
  induction ps with
  | nil => simp [windowScan, idxExtremaSpec]
  | cons p0 l ih =>
    cases l with
    | nil =>
      rw [idxExtremaSpec_short cond _ (by simp)]
      rfl
    | cons p1 l2 =>
      cases l2 with
      | nil =>
        rw [idxExtremaSpec_short cond _ (by simp)]
        rfl
      | cons p2 rest =>
        rw [windowScan, ih, idxExtremaSpec_cons]
        by_cases hc : cond p0 p1 p2 = true
        · rw [if_pos hc, if_pos hc, List.singleton_append]
        · rw [if_neg hc, if_neg hc, List.nil_append]

/-- C4: `FindExtrema` reports exactly the interior samples that are strict local
maxima (as highs) and strict local minima (as lows): the highs list is precisely the
samples at indices `i` with `0 < i`, `i + 1 < length`, `h[i-1] < h[i]` and
`h[i+1] < h[i]`, in order, and dually for lows with strict `<` reversed.  Plateau
samples (an equal neighbour) fail the strict comparisons so are never reported, and
the first and last samples are never reported. -/
theorem findExtrema_reports_strict_interior_extrema (ps : List TideLevel) :
    (findExtrema ps).highs = idxExtremaSpec strictHighCond ps
    ∧ (findExtrema ps).lows = idxExtremaSpec strictLowCond ps := by
  unfold findExtrema
  by_cases hlen : ps.length < 3
  · rw [if_pos hlen, idxExtremaSpec_short _ _ hlen, idxExtremaSpec_short _ _ hlen]
    exact ⟨rfl, rfl⟩
  · rw [if_neg hlen, findExtremaAux_eq_windowScan,
      windowScan_eq_idxExtremaSpec, windowScan_eq_idxExtremaSpec]
    exact ⟨rfl, rfl⟩

/-- C5: `RefineExtremum` returns the original discrete peak unchanged when the two
time spacings differ by more than 1e-6 hours, or the curvature `|a|` is below the
1e-10 threshold, or the vertex offset `|-b/(2a)|` exceeds one sample interval;
otherwise it returns the finite-difference parabola vertex
(time `peak + dtVertex`, height `h1 + b·dtVertex + a·dtVertex²`). -/
theorem refineExtremum_spec (before peak after : TideLevel) :
    (|durationHours (peak.time - before.time) -
        durationHours (after.time - peak.time)| > 1e-6 →
      refineExtremum before peak after = (peak.time, peak.heightM))
    ∧ (¬ |durationHours (peak.time - before.time) -
          durationHours (after.time - peak.time)| > 1e-6 →
        |parabolaA before peak after| < 1e-10 →
        refineExtremum before peak after = (peak.time, peak.heightM))
    ∧ (¬ |durationHours (peak.time - before.time) -
          durationHours (after.time - peak.time)| > 1e-6 →
        ¬ |parabolaA before peak after| < 1e-10 →
        |vertexOffset before peak after| > durationHours (peak.time - before.time) →
        refineExtremum before peak after = (peak.time, peak.heightM))
    ∧ (¬ |durationHours (peak.time - before.time) -
          durationHours (after.time - peak.time)| > 1e-6 →
        ¬ |parabolaA before peak after| < 1e-10 →
        ¬ |vertexOffset before peak after| > durationHours (peak.time - before.time) →
        refineExtremum before peak after =
          (peak.time + goTruncToInt (vertexOffset before peak after * (nsPerHour : ℝ)),
            peak.heightM + parabolaB before peak after * vertexOffset before peak after +
              parabolaA before peak after * vertexOffset before peak after *
                vertexOffset before peak after)) := by
  refine ⟨?_, ?_, ?_, ?_⟩
  · intro h1
    unfold refineExtremum
    rw [if_pos h1]
  · intro h1 h2
    unfold refineExtremum
    rw [if_neg h1, if_pos h2]
  · intro h1 h2 h3
    unfold refineExtremum
    rw [if_neg h1, if_neg h2, if_pos h3]
  · intro h1 h2 h3
    unfold refineExtremum
    rw [if_neg h1, if_neg h2, if_neg h3]

/-- Witness for C5: on the one-hour-spaced triple with heights 0, 1, 0 all fallback
conditions fail and the vertex is the discrete peak itself (offset 0, height 1). -/
theorem refineExtremum_spec_witness :
    refineExtremum exampleC5Before exampleC5Peak exampleC5After = (nsPerHour, 1) := by
  have hdt : durationHours (exampleC5Peak.time - exampleC5Before.time) = 1 := by
    simp [durationHours, exampleC5Peak, exampleC5Before, nsPerHour]
  have hdt2 : durationHours (exampleC5After.time - exampleC5Peak.time) = 1 := by
    simp [durationHours, exampleC5After, exampleC5Peak, nsPerHour]
  have ha : parabolaA exampleC5Before exampleC5Peak exampleC5After = -1 := by
    unfold parabolaA
    rw [hdt]
    simp [exampleC5Before, exampleC5Peak, exampleC5After]
  have hb : parabolaB exampleC5Before exampleC5Peak exampleC5After = 0 := by
    unfold parabolaB
    rw [hdt]
    simp [exampleC5Before, exampleC5Peak, exampleC5After]
  have hv : vertexOffset exampleC5Before exampleC5Peak exampleC5After = 0 := by
    unfold vertexOffset
    rw [hb]
    simp
  have h := (refineExtremum_spec exampleC5Before exampleC5Peak exampleC5After).2.2.2
    (by rw [hdt, hdt2]; norm_num)
    (by rw [ha]; norm_num)
    (by rw [hv, hdt]; norm_num)
  rw [h, hv, ha, hb]
  have htr : goTruncToInt ((0 : ℝ) * (nsPerHour : ℝ)) = 0 := by
    simp [goTruncToInt]
  rw [htr]
  simp [exampleC5Peak]

theorem chain'_getD_lt (l : List ℝ) (hl : List.Chain' (· < ·) l) {i j : Nat}
    (hij : i < j) (hj : j < l.length) : l.getD i 0 < l.getD j 0 := by
  have hp := (List.chain'_iff_pairwise).mp hl
  rw [List.pairwise_iff_getElem] at hp
  have hi : i < l.length := lt_trans hij hj
  rw [List.getD_eq_getElem l 0 hi, List.getD_eq_getElem l 0 hj]
  exact hp i j hi hj hij

theorem chain'_getD_le (l : List ℝ) (hl : List.Chain' (· < ·) l) {i j : Nat}
    (hij : i ≤ j) (hj : j < l.length) : l.getD i 0 ≤ l.getD j 0 := by
  rcases Nat.lt_or_ge i j with h | h
  · exact le_of_lt (chain'_getD_lt l hl h hj)
  · have heq : i = j := le_antisymm hij h
    rw [heq]

theorem validate_ok_facts (g : Grid2D) (hv : g.validate = Except.ok ()) :
    2 ≤ g.x.length ∧ 2 ≤ g.y.length ∧
      List.Chain' (· < ·) g.x ∧ List.Chain' (· < ·) g.y := by
  unfold Grid2D.validate at hv
  split_ifs at hv with h1 h2 h3 h4 h5 h6
  exact ⟨by omega, by omega, h5, h6⟩

theorem find?_range'_first (p : Nat → Bool) :
    ∀ (n s i : Nat), s ≤ i → i < s + n → p i = true →
      (∀ c, s ≤ c → c < i → p c = false) →
      (List.range' s n).find? p = some i := by
  intro n
  induction n with
  | zero =>
    intro s i h1 h2 _ _
    omega
  | succ m ih =>
    intro s i h1 h2 hp hprev
    rw [List.range'_succ]
    by_cases hsi : s = i
    · subst hsi
      rw [List.find?_cons_of_pos _ hp]
    · have hps : p s = false := hprev s le_rfl (by omega)
      rw [List.find?_cons_of_neg _ (by simp [hps])]
      exact ih (s + 1) i (by omega) (by omega) hp
        (fun c hc1 hc2 => hprev c (by omega) hc2)

theorem find?_range_first (p : Nat → Bool) (n i : Nat) (hin : i < n) (hp : p i = true)
    (hprev : ∀ c < i, p c = false) : (List.range n).find? p = some i := by
  rw [List.range_eq_range']
  exact find?_range'_first p n 0 i (Nat.zero_le i) (by omega) hp
    (fun c _ hc => hprev c hc)

theorem findCellIdx_at_gridpoint (l : List ℝ) (hl : List.Chain' (· < ·) l)
    (hlen : 2 ≤ l.length) (k : Nat) (hk : k < l.length) :
    findCellIdx l (l.getD k 0) = some (k - 1) := by
  unfold findCellIdx
  apply find?_range_first
  · omega
  · simp only [Bool.and_eq_true, decide_eq_true_eq]
    by_cases hk0 : k = 0
    · subst hk0
      exact ⟨le_refl _, chain'_getD_le l hl (by omega) (by omega)⟩
    · constructor
      · exact chain'_getD_le l hl (by omega) hk
      · rw [show k - 1 + 1 = k from by omega]
  · intro c hc
    have hlt : l.getD (c + 1) 0 < l.getD k 0 := chain'_getD_lt l hl (by omega) hk
    have hB : decide (l.getD k 0 ≤ l.getD (c + 1) 0) = false := by
      simp only [decide_eq_false_iff_not, not_le]
      exact hlt
    rw [hB, Bool.and_false]

theorem findCellIdx_at_center (l : List ℝ) (hl : List.Chain' (· < ·) l)
    (i : Nat) (hi : i + 1 < l.length) :
    findCellIdx l ((l.getD i 0 + l.getD (i + 1) 0) / 2) = some i := by
  have hlt : l.getD i 0 < l.getD (i + 1) 0 := chain'_getD_lt l hl (by omega) hi
  unfold findCellIdx
  apply find?_range_first
  · omega
  · simp only [Bool.and_eq_true, decide_eq_true_eq]
    constructor
    · linarith
    · linarith
  · intro c hc
    have hle : l.getD (c + 1) 0 ≤ l.getD i 0 := chain'_getD_le l hl (by omega) (by omega)
    have hB : decide ((l.getD i 0 + l.getD (i + 1) 0) / 2 ≤ l.getD (c + 1) 0) = false := by
      simp only [decide_eq_false_iff_not, not_le]
      linarith
    rw [hB, Bool.and_false]

theorem findCellIdx_none_low (l : List ℝ) (hl : List.Chain' (· < ·) l) (v : ℝ)
    (hv : v < l.getD 0 0) : findCellIdx l v = none := by
  unfold findCellIdx
  rw [List.find?_eq_none]
  intro i hi
  have hi' : i < l.length - 1 := List.mem_range.mp hi
  have hle : l.getD 0 0 ≤ l.getD i 0 := chain'_getD_le l hl (by omega) (by omega)
  have hA : decide (l.getD i 0 ≤ v) = false := by
    simp only [decide_eq_false_iff_not, not_le]
    linarith
  rw [hA, Bool.false_and]
  exact Bool.false_ne_true

theorem findCellIdx_none_high (l : List ℝ) (hl : List.Chain' (· < ·) l) (v : ℝ)
    (hv : l.getD (l.length - 1) 0 < v) : findCellIdx l v = none := by
  unfold findCellIdx
  rw [List.find?_eq_none]
  intro i hi
  have hi' : i < l.length - 1 := List.mem_range.mp hi
  have hle : l.getD (i + 1) 0 ≤ l.getD (l.length - 1) 0 :=
    chain'_getD_le l hl (by omega) (by omega)
  have hB : decide (v ≤ l.getD (i + 1) 0) = false := by
    simp only [decide_eq_false_iff_not, not_le]
    linarith
  rw [hB, Bool.and_false]
  exact Bool.false_ne_true

theorem interpolateAt_found (g : Grid2D) (x y : ℝ) (xi yi : Nat)
    (hv : g.validate = Except.ok ())
    (hx : findCellIdx g.x x = some xi) (hy : findCellIdx g.y y = some yi) :
    g.interpolateAt x y =
      Except.ok (blendFormula (g.x.getD xi 0) (g.x.getD (xi + 1) 0)
        (g.y.getD yi 0) (g.y.getD (yi + 1) 0)
        ((g.values.getD yi []).getD xi 0) ((g.values.getD yi []).getD (xi + 1) 0)
        ((g.values.getD (yi + 1) []).getD xi 0)
        ((g.values.getD (yi + 1) []).getD (xi + 1) 0) x y) := by
  obtain ⟨hx2, hy2, hcx, hcy⟩ := validate_ok_facts g hv
  have hxi : xi < g.x.length - 1 := by
    have := List.mem_of_find?_eq_some hx
    exact List.mem_range.mp this
  have hyi : yi < g.y.length - 1 := by
    have := List.mem_of_find?_eq_some hy
    exact List.mem_range.mp this
  have hpx := List.find?_some hx
  have hpy := List.find?_some hy
  simp only [Bool.and_eq_true, decide_eq_true_eq] at hpx hpy
  obtain ⟨hxl, hxr⟩ := hpx
  obtain ⟨hyl, hyr⟩ := hpy
  have hxlt : g.x.getD xi 0 < g.x.getD (xi + 1) 0 :=
    chain'_getD_lt g.x hcx (by omega) (by omega)
  have hylt : g.y.getD yi 0 < g.y.getD (yi + 1) 0 :=
    chain'_getD_lt g.y hcy (by omega) (by omega)
  unfold Grid2D.interpolateAt
  rw [hv, hx, hy]
  unfold bilinearInterpolate
  dsimp only
  rw [if_neg (by push_neg; exact hxlt), if_neg (by push_neg; exact hylt),
    if_neg (by push_neg; constructor <;> nlinarith),
    if_neg (by push_neg; constructor <;> nlinarith)]
  have ht01 : max 0 (min 1 ((x - g.x.getD xi 0) / (g.x.getD (xi + 1) 0 - g.x.getD xi 0)))
      = (x - g.x.getD xi 0) / (g.x.getD (xi + 1) 0 - g.x.getD xi 0) := by
    rw [min_eq_right, max_eq_right]
    · exact div_nonneg (by linarith) (by linarith)
    · rw [div_le_one (by linarith)]
      linarith
  have hu01 : max 0 (min 1 ((y - g.y.getD yi 0) / (g.y.getD (yi + 1) 0 - g.y.getD yi 0)))
      = (y - g.y.getD yi 0) / (g.y.getD (yi + 1) 0 - g.y.getD yi 0) := by
    rw [min_eq_right, max_eq_right]
    · exact div_nonneg (by linarith) (by linarith)
    · rw [div_le_one (by linarith)]
      linarith
  simp only [ht01, hu01]
  rfl

theorem blendFormula_corner00 (x0 x1 y0 y1 v00 v10 v01 v11 : ℝ) :
    blendFormula x0 x1 y0 y1 v00 v10 v01 v11 x0 y0 = v00 := by
  unfold blendFormula
  rw [sub_self, zero_div]
  ring

theorem blendFormula_corner10 (x0 x1 y0 y1 v00 v10 v01 v11 : ℝ) (hx : x0 < x1) :
    blendFormula x0 x1 y0 y1 v00 v10 v01 v11 x1 y0 = v10 := by
  unfold blendFormula
  rw [div_self (sub_ne_zero.mpr hx.ne'), sub_self, zero_div]
  ring

theorem blendFormula_corner01 (x0 x1 y0 y1 v00 v10 v01 v11 : ℝ) (hy : y0 < y1) :
    blendFormula x0 x1 y0 y1 v00 v10 v01 v11 x0 y1 = v01 := by
  unfold blendFormula
  rw [sub_self, zero_div, div_self (sub_ne_zero.mpr hy.ne')]
  ring

theorem blendFormula_corner11 (x0 x1 y0 y1 v00 v10 v01 v11 : ℝ)
    (hx : x0 < x1) (hy : y0 < y1) :
    blendFormula x0 x1 y0 y1 v00 v10 v01 v11 x1 y1 = v11 := by
  unfold blendFormula
  rw [div_self (sub_ne_zero.mpr hx.ne'), div_self (sub_ne_zero.mpr hy.ne')]
  ring

theorem blendFormula_center (x0 x1 y0 y1 v00 v10 v01 v11 : ℝ)
    (hx : x0 < x1) (hy : y0 < y1) :
    blendFormula x0 x1 y0 y1 v00 v10 v01 v11 ((x0 + x1) / 2) ((y0 + y1) / 2) =
      (v00 + v10 + v01 + v11) / 4 := by
  unfold blendFormula
  have ht : ((x0 + x1) / 2 - x0) / (x1 - x0) = 1 / 2 := by
    rw [div_eq_div_iff (sub_ne_zero.mpr hx.ne') two_ne_zero]
    ring
  have hu : ((y0 + y1) / 2 - y0) / (y1 - y0) = 1 / 2 := by
    rw [div_eq_div_iff (sub_ne_zero.mpr hy.ne') two_ne_zero]
    ring
  rw [ht, hu]
  ring

theorem interpolateAt_gridpoint (g : Grid2D) (k m : Nat)
    (hv : g.validate = Except.ok ())
    (hk : k < g.x.length) (hm : m < g.y.length) :
    g.interpolateAt (g.x.getD k 0) (g.y.getD m 0) =
      Except.ok ((g.values.getD m []).getD k 0) := by
  obtain ⟨hx2, hy2, hcx, hcy⟩ := validate_ok_facts g hv
  rw [interpolateAt_found g _ _ (k - 1) (m - 1) hv
    (findCellIdx_at_gridpoint g.x hcx hx2 k hk)
    (findCellIdx_at_gridpoint g.y hcy hy2 m hm)]
  by_cases hk0 : k = 0
  · subst hk0
    by_cases hm0 : m = 0
    · subst hm0
      rw [blendFormula_corner00]
    · rw [show m - 1 + 1 = m from by omega]
      have hylt : g.y.getD (m - 1) 0 < g.y.getD m 0 :=
        chain'_getD_lt g.y hcy (by omega) hm
      rw [blendFormula_corner01 _ _ _ _ _ _ _ _ hylt]
  · rw [show k - 1 + 1 = k from by omega]
    have hxlt : g.x.getD (k - 1) 0 < g.x.getD k 0 :=
      chain'_getD_lt g.x hcx (by omega) hk
    by_cases hm0 : m = 0
    · subst hm0
      rw [blendFormula_corner10 _ _ _ _ _ _ _ _ hxlt]
    · rw [show m - 1 + 1 = m from by omega]
      have hylt : g.y.getD (m - 1) 0 < g.y.getD m 0 :=
        chain'_getD_lt g.y hcy (by omega) hm
      rw [blendFormula_corner11 _ _ _ _ _ _ _ _ hxlt hylt]

theorem interpolateAt_cellcenter (g : Grid2D) (i j : Nat)
    (hv : g.validate = Except.ok ())
    (hi : i + 1 < g.x.length) (hj : j + 1 < g.y.length) :
    g.interpolateAt ((g.x.getD i 0 + g.x.getD (i + 1) 0) / 2)
        ((g.y.getD j 0 + g.y.getD (j + 1) 0) / 2) =
      Except.ok (((g.values.getD j []).getD i 0 + (g.values.getD j []).getD (i + 1) 0 +
        (g.values.getD (j + 1) []).getD i 0 +
        (g.values.getD (j + 1) []).getD (i + 1) 0) / 4) := by
  obtain ⟨hx2, hy2, hcx, hcy⟩ := validate_ok_facts g hv
  rw [interpolateAt_found g _ _ i j hv (findCellIdx_at_center g.x hcx i hi)
    (findCellIdx_at_center g.y hcy j hj)]
  rw [blendFormula_center _ _ _ _ _ _ _ _ (chain'_getD_lt g.x hcx (by omega) hi)
    (chain'_getD_lt g.y hcy (by omega) hj)]

theorem interpolateAt_outside (g : Grid2D) (hv : g.validate = Except.ok ())
    (x y : ℝ)
    (hout : x < g.x.getD 0 0 ∨ g.x.getD (g.x.length - 1) 0 < x ∨
      y < g.y.getD 0 0 ∨ g.y.getD (g.y.length - 1) 0 < y) :
    ∃ e, g.interpolateAt x y = Except.error e := by
  obtain ⟨hx2, hy2, hcx, hcy⟩ := validate_ok_facts g hv
  unfold Grid2D.interpolateAt
  rw [hv]
  dsimp only
  rcases hout with h | h | h | h
  · rw [findCellIdx_none_low g.x hcx x h]
    exact ⟨_, rfl⟩
  · rw [findCellIdx_none_high g.x hcx x h]
    exact ⟨_, rfl⟩
  · cases hfx : findCellIdx g.x x with
    | none => exact ⟨_, rfl⟩
    | some xi =>
      rw [findCellIdx_none_low g.y hcy y h]
      exact ⟨_, rfl⟩
  · cases hfx : findCellIdx g.x x with
    | none => exact ⟨_, rfl⟩
    | some xi =>
      rw [findCellIdx_none_high g.y hcy y h]
      exact ⟨_, rfl⟩

/-- C6: for every valid `Grid2D`, `InterpolateAt` at each of the four corner
coordinates of a cell returns that corner's stored value exactly; at the centre of a
cell it returns the arithmetic mean of the four corner values; and every point outside
the rectangle `[X[0], X[last]] × [Y[0], Y[last]]` yields an error. -/
theorem grid2D_interpolateAt_spec (g : Grid2D) (i j : Nat)
    (hv : g.validate = Except.ok ())
    (hi : i + 1 < g.x.length) (hj : j + 1 < g.y.length) :
    (g.interpolateAt (g.x.getD i 0) (g.y.getD j 0) =
        Except.ok ((g.values.getD j []).getD i 0)) ∧
    (g.interpolateAt (g.x.getD (i + 1) 0) (g.y.getD j 0) =
        Except.ok ((g.values.getD j []).getD (i + 1) 0)) ∧
    (g.interpolateAt (g.x.getD i 0) (g.y.getD (j + 1) 0) =
        Except.ok ((g.values.getD (j + 1) []).getD i 0)) ∧
    (g.interpolateAt (g.x.getD (i + 1) 0) (g.y.getD (j + 1) 0) =
        Except.ok ((g.values.getD (j + 1) []).getD (i + 1) 0)) ∧
    (g.interpolateAt ((g.x.getD i 0 + g.x.getD (i + 1) 0) / 2)
        ((g.y.getD j 0 + g.y.getD (j + 1) 0) / 2) =
      Except.ok (((g.values.getD j []).getD i 0 + (g.values.getD j []).getD (i + 1) 0 +
        (g.values.getD (j + 1) []).getD i 0 +
        (g.values.getD (j + 1) []).getD (i + 1) 0) / 4)) ∧
    (∀ x y : ℝ, (x < g.x.getD 0 0 ∨ g.x.getD (g.x.length - 1) 0 < x ∨
        y < g.y.getD 0 0 ∨ g.y.getD (g.y.length - 1) 0 < y) →
      ∃ e, g.interpolateAt x y = Except.error e) :=
  ⟨interpolateAt_gridpoint g i j hv (by omega) (by omega),
   interpolateAt_gridpoint g (i + 1) j hv (by omega) (by omega),
   interpolateAt_gridpoint g i (j + 1) hv (by omega) (by omega),
   interpolateAt_gridpoint g (i + 1) (j + 1) hv (by omega) (by omega),
   interpolateAt_cellcenter g i j hv hi hj,
   fun x y hout => interpolateAt_outside g hv x y hout⟩

/-- Witness for C6 on the concrete 3×3 grid: the bottom-left grid point returns its
stored value 1 exactly. -/
theorem grid2D_interpolateAt_spec_witness :
    exampleGrid.validate = Except.ok () ∧
    exampleGrid.interpolateAt 0 0 = Except.ok 1 := by
  have hval : exampleGrid.validate = Except.ok () := by
    unfold Grid2D.validate exampleGrid
    norm_num [List.chain'_cons, List.chain'_singleton]
  refine ⟨hval, ?_⟩
  have h := (grid2D_interpolateAt_spec exampleGrid 0 0 hval
    (by norm_num [exampleGrid]) (by norm_num [exampleGrid])).1
  simpa [exampleGrid, List.getD_cons_zero] using h

theorem normalizeLon360_eq_fract (lon : ℝ) :
    normalizeLon360 lon = 360 * Int.fract (lon / 360) := by
  have hlon : lon / 360 * 360 = lon := div_mul_cancel₀ lon (by norm_num)
  have hfr : Int.fract (lon / 360) = lon / 360 - (⌊lon / 360⌋ : ℝ) := rfl
  unfold normalizeLon360 goMod goTruncToInt
  by_cases hq0 : 0 ≤ lon / 360
  · rw [if_pos hq0]
    have hval : lon - 360 * ((⌊lon / 360⌋ : ℤ) : ℝ) = 360 * Int.fract (lon / 360) := by
      rw [hfr]
      nlinarith [hlon]
    rw [hval, if_neg]
    have := Int.fract_nonneg (lon / 360)
    push_neg
    linarith
  · rw [if_neg hq0]
    by_cases hneg : lon - 360 * ((⌈lon / 360⌉ : ℤ) : ℝ) < 0
    · rw [if_pos hneg]
      have hlt : lon / 360 < ((⌈lon / 360⌉ : ℤ) : ℝ) := by nlinarith [hlon]
      have hfl : ((⌊lon / 360⌋ : ℤ) : ℝ) ≤ lon / 360 := Int.floor_le _
      have hceil_le : (⌈lon / 360⌉ : ℤ) ≤ ⌊lon / 360⌋ + 1 := Int.ceil_le_floor_add_one _
      have hfl_lt : ⌊lon / 360⌋ < ⌈lon / 360⌉ := by
        have hr : ((⌊lon / 360⌋ : ℤ) : ℝ) < ((⌈lon / 360⌉ : ℤ) : ℝ) :=
          lt_of_le_of_lt hfl hlt
        exact_mod_cast hr
      have hceq : (⌈lon / 360⌉ : ℤ) = ⌊lon / 360⌋ + 1 := le_antisymm hceil_le (by omega)
      rw [hceq, hfr]
      push_cast
      nlinarith [hlon]
    · rw [if_neg hneg]
      push_neg at hneg
      have hle : lon - 360 * ((⌈lon / 360⌉ : ℤ) : ℝ) ≤ 0 := by
        have hq : lon / 360 ≤ ((⌈lon / 360⌉ : ℤ) : ℝ) := Int.le_ceil _
        nlinarith [hlon]
      have heq0 : lon - 360 * ((⌈lon / 360⌉ : ℤ) : ℝ) = 0 := le_antisymm hle hneg
      have hqint : lon / 360 = ((⌈lon / 360⌉ : ℤ) : ℝ) := by nlinarith [hlon]
      rw [heq0, hqint, Int.fract_intCast, mul_zero]

theorem normalizeLon360_of_mem (lon : ℝ) (h0 : 0 ≤ lon) (h1 : lon < 360) :
    normalizeLon360 lon = lon := by
  rw [normalizeLon360_eq_fract,
    Int.fract_eq_self.mpr ⟨by linarith, by linarith⟩, mul_comm,
    div_mul_cancel₀ lon (by norm_num)]

/-- C7: `normalizeLon360` always lands in `[0, 360)` and is invariant under adding
integer multiples of 360; `normalizeLonForAxis` applies it exactly when the axis
endpoints satisfy `0 ≤ min` and `180 < max` (the `[0,360)`-style grid test); and on
any wrapping axis a query at longitude −220 resolves identically to one at 140. -/
theorem normalizeLon360_spec :
    (∀ lon : ℝ, 0 ≤ normalizeLon360 lon ∧ normalizeLon360 lon < 360) ∧
    (∀ (lon : ℝ) (k : ℤ), normalizeLon360 (lon + 360 * k) = normalizeLon360 lon) ∧
    (∀ (lons : List ℝ) (lon : ℝ),
      (lonAxisRequiresWrap lons = true →
        normalizeLonForAxis lons lon = normalizeLon360 lon) ∧
      (lonAxisRequiresWrap lons = false → normalizeLonForAxis lons lon = lon)) ∧
    (∀ lons : List ℝ, lons ≠ [] →
      (lonAxisRequiresWrap lons = true ↔
        0 ≤ min (lons.getD 0 0) (lons.getD (lons.length - 1) 0) ∧
        180 < max (lons.getD 0 0) (lons.getD (lons.length - 1) 0))) ∧
    (∀ lons : List ℝ, lonAxisRequiresWrap lons = true →
      normalizeLonForAxis lons (-220) = normalizeLonForAxis lons 140 ∧
      normalizeLonForAxis lons (-220) = 140) := by
  have hmem : ∀ lon : ℝ, 0 ≤ normalizeLon360 lon ∧ normalizeLon360 lon < 360 := by
    intro lon
    rw [normalizeLon360_eq_fract]
    have h1 := Int.fract_nonneg (lon / 360)
    have h2 := Int.fract_lt_one (lon / 360)
    constructor <;> nlinarith
  have hper : ∀ (lon : ℝ) (k : ℤ),
      normalizeLon360 (lon + 360 * k) = normalizeLon360 lon := by
    intro lon k
    rw [normalizeLon360_eq_fract, normalizeLon360_eq_fract]
    have hdiv : (lon + 360 * k) / 360 = lon / 360 + k := by
      field_simp
      ring
    rw [hdiv, Int.fract_add_int]
  have hm220 : normalizeLon360 (-220) = 140 := by
    have he : (-220 : ℝ) = 140 + 360 * ((-1 : ℤ) : ℝ) := by norm_num
    rw [he, hper 140 (-1), normalizeLon360_of_mem 140 (by norm_num) (by norm_num)]
  refine ⟨hmem, hper, ?_, ?_, ?_⟩
  · intro lons lon
    constructor
    · intro h
      unfold normalizeLonForAxis
      rw [h]
      rfl
    · intro h
      unfold normalizeLonForAxis
      rw [h]
      rfl
  · intro lons hne
    unfold lonAxisRequiresWrap
    rw [if_neg (by simpa [List.isEmpty_iff] using hne)]
    by_cases hab : lons.getD 0 0 > lons.getD (lons.length - 1) 0
    · rw [if_pos hab, if_pos hab, min_eq_right hab.le, max_eq_left hab.le]
      simp
    · rw [if_neg hab, if_neg hab]
      push_neg at hab
      rw [min_eq_left hab, max_eq_right hab]
      simp
  · intro lons h
    have ha : normalizeLonForAxis lons (-220) = normalizeLon360 (-220) := by
      unfold normalizeLonForAxis
      rw [h]
      rfl
    have hb : normalizeLonForAxis lons 140 = normalizeLon360 140 := by
      unfold normalizeLonForAxis
      rw [h]
      rfl
    rw [ha, hb, hm220, normalizeLon360_of_mem 140 (by norm_num) (by norm_num)]
    exact ⟨rfl, rfl⟩

/-- Witness for C7: the `[0, 350]` axis requires wrapping, and a −220° query on it
normalizes to 140°. -/
theorem normalizeLon360_spec_witness :
    lonAxisRequiresWrap exampleLonAxis = true ∧
    normalizeLonForAxis exampleLonAxis (-220) = 140 := by
  have hw : lonAxisRequiresWrap exampleLonAxis = true := by
    unfold lonAxisRequiresWrap exampleLonAxis
    norm_num
  exact ⟨hw, (normalizeLon360_spec.2.2.2.2 exampleLonAxis hw).2⟩

/-- C9: through the external coefficient path of `GetFactors`, an amplitude factor
that evaluates to exactly 0 is replaced by 1, and the phase correction `u` is
unaffected: on the linear Fourier path a zero series yields `(1, EvalU(N))`, and on
the nonlinear path a zero magnitude yields `(1, Rad2Deg(atan2(t1, t2)))`. -/
theorem getFactors_zero_f_becomes_one (nc : AstronomicalNodalCorrection)
    (set : NodalCoeffSet) (c : NodalCoeff) (name : String) (t : ℝ)
    (hset : nc.coeffs = some set) (hc : set.byName name = some c) :
    (c.nonlinear = none →
      c.evalFSeries (calculateAstronomicalArguments t).N = 0 →
      nc.getFactors name t = (1, c.evalU (calculateAstronomicalArguments t).N)) ∧
    (∀ s : NonlinearSpec, c.nonlinear = some s →
      Real.sqrt
        (s.term1 (deg2Rad (calculateAstronomicalArguments t).N) *
            s.term1 (deg2Rad (calculateAstronomicalArguments t).N) +
          s.term2 (deg2Rad (calculateAstronomicalArguments t).N) *
            s.term2 (deg2Rad (calculateAstronomicalArguments t).N)) = 0 →
      nc.getFactors name t =
        (1, rad2Deg (atan2 (s.term1 (deg2Rad (calculateAstronomicalArguments t).N))
          (s.term2 (deg2Rad (calculateAstronomicalArguments t).N))))) := by
  constructor
  · intro hnl h0
    unfold AstronomicalNodalCorrection.getFactors
    rw [hset]
    dsimp only
    rw [hc]
    dsimp only
    unfold NodalCoeff.evalNonlinear
    rw [hnl]
    dsimp only
    unfold NodalCoeff.evalF
    rw [if_pos h0, if_neg one_ne_zero]
  · intro s hnl h0
    unfold AstronomicalNodalCorrection.getFactors
    rw [hset]
    dsimp only
    rw [hc]
    dsimp only
    unfold NodalCoeff.evalNonlinear
    rw [hnl]
    dsimp only
    rw [if_pos h0]

/-- Witness for C9: the example external coefficient with an identically-zero `f`
series yields factor 1 and the unaffected `u = U0 = 5`. -/
theorem getFactors_zero_f_becomes_one_witness :
    exampleC9NC.getFactors "X1" 0 = (1, 5) := by
  have hc : exampleC9Set.byName "X1" = some exampleC9Coeff := by
    unfold NodalCoeffSet.byName exampleC9Set
    rw [List.find?_cons_of_pos]
    rfl
  have h := (getFactors_zero_f_becomes_one exampleC9NC exampleC9Set exampleC9Coeff
    "X1" 0 rfl hc).1 rfl
    (by simp [NodalCoeff.evalFSeries, exampleC9Coeff])
  rw [h]
  simp [NodalCoeff.evalU, exampleC9Coeff]

/-- C2 (refuted): through the request path (`LoadForLocation` →
`interpolateConstituentAtPoint` → `interpolatePointFromNetCDF`), a combined
`ocean_tide`-style file whose stored amplitude is 100 (centimeters) at every corner
of the queried cell is exposed to the caller as 0.01 m, not 1.0 m: the cm→m division
is applied once inside `interpolatePointFromNetCDF` (ocean_tide path) and once more
in `interpolateConstituentAtPoint`. -/
theorem fes_ocean_tide_amplitude_divided_twice :
    interpolateConstituentAtPoint "ocean_tide/s4.nc" "ocean_tide/s4.nc"
      exampleFesFile exampleFesFile 35 139 = Except.ok (0.01, 100) ∧
    (0.01 : ℝ) ≠ 1 := by
  have hloop : ∀ v : ℝ, findGridCellLoop [(35 : ℝ), 36] v 0 1 = 0 := by
    intro v
    rw [findGridCellLoop]
    norm_num
  have hloop2 : ∀ v : ℝ, findGridCellLoop [(139 : ℝ), 140] v 0 1 = 0 := by
    intro v
    rw [findGridCellLoop]
    norm_num
  have hlat : findGridCell [(35 : ℝ), 36] 35 = some 0 := by
    unfold findGridCell
    rw [if_neg (by norm_num),
      if_neg (by norm_num [List.getD_cons_zero, List.getD_cons_succ])]
    rw [show ([(35 : ℝ), 36].length - 1) = 1 from by norm_num, hloop]
  have hlon : findGridCell [(139 : ℝ), 140] 139 = some 0 := by
    unfold findGridCell
    rw [if_neg (by norm_num),
      if_neg (by norm_num [List.getD_cons_zero, List.getD_cons_succ])]
    rw [show ([(139 : ℝ), 140].length - 1) = 1 from by norm_num, hloop2]
  have hsub : containsSubstr (toLowerStr "ocean_tide/s4.nc") "ocean_tide" = true := by
    decide
  have hamp : interpolatePointFromNetCDF "ocean_tide/s4.nc" FesVarKind.amplitude
      exampleFesFile 35 139 = Except.ok 1 := by
    unfold interpolatePointFromNetCDF exampleFesFile
    dsimp only
    rw [hlat, hlon]
    dsimp only
    rw [if_neg (by norm_num)]
    rw [if_pos (by rw [hsub]; rfl)]
    norm_num [readSubset2x2, fesBilinear2x2, List.getD_cons_zero, List.getD_cons_succ]
  have hpha : interpolatePointFromNetCDF "ocean_tide/s4.nc" FesVarKind.phase
      exampleFesFile 35 139 = Except.ok 100 := by
    unfold interpolatePointFromNetCDF exampleFesFile
    dsimp only
    rw [hlat, hlon]
    dsimp only
    rw [if_neg (by norm_num)]
    rw [if_neg (by simp)]
    norm_num [readSubset2x2, fesBilinear2x2, List.getD_cons_zero, List.getD_cons_succ]
  constructor
  · unfold interpolateConstituentAtPoint
    dsimp only
    rw [normalizeLon360_of_mem 139 (by norm_num) (by norm_num), hamp]
    dsimp only
    rw [hpha]
    dsimp only
    norm_num
  · norm_num

theorem executeRest_no_metadata_fields (env : ExecEnv) (req : PredictionRequest)
    (source : String) (cs : List ConstituentParam) :
    (executeRest env req source cs none).msl = none ∧
    (executeRest env req source cs none).seabedDepth = none :=
  ⟨rfl, rfl⟩

/-- C8: a constituent-source failure is fatal to `Execute` (station and location
paths both surface the load error), while a metadata failure degrades: with a
failing bathymetry store `Execute` behaves exactly as with a store reporting no
metadata, and any successful response carries neither MSL nor seabed depth; and an
out-of-bounds MSL interpolation inside `GetMetadata` yields "no metadata"
(`ok none`) instead of an error. -/
theorem execute_error_handling :
    (∀ (env : ExecEnv) (req : PredictionRequest) (sid : String) (e : String),
      req.validate = Except.ok () → req.stationID = some sid → req.source ≠ "fes" →
      env.loadForStation sid = Except.error e →
      execute env req =
        Except.error ("failed to load constituents for station: " ++ e)) ∧
    (∀ (env : ExecEnv) (req : PredictionRequest) (e : String),
      req.validate = Except.ok () → req.stationID = none → req.source ≠ "csv" →
      env.loadForLocation (req.lat.getD 0) (req.lon.getD 0) = Except.error e →
      execute env req =
        Except.error ("failed to load constituents for location: " ++ e)) ∧
    (∀ (env : ExecEnv) (req : PredictionRequest)
        (f : ℝ → ℝ → Except String (Option LocationMetadata)) (e : String),
      env.bathymetry = some f →
      (∀ la lo, f la lo = Except.error e) →
      execute env req =
        execute ⟨env.loadForStation, env.loadForLocation,
          some (fun _ _ => Except.ok none), env.astroCoeffs, env.datumOffsets⟩ req ∧
      (∀ resp, execute env req = Except.ok resp →
        resp.msl = none ∧ resp.seabedDepth = none) ∧
      (∀ cs, req.validate = Except.ok () → req.stationID = none →
        req.source ≠ "csv" →
        env.loadForLocation (req.lat.getD 0) (req.lon.getD 0) = Except.ok cs →
        execute env req = Except.ok (executeRest env req "fes" cs none))) ∧
    (∀ (g : Grid2D) (dg : Option Grid2D)
        (geoid : Option (ℝ → ℝ → Except String ℝ)) (lat lon : ℝ) (e : String),
      g.interpolateAt (normalizeLonForAxis g.x lon) lat = Except.error e →
      getMetadata (some g) dg geoid lat lon = Except.ok none) := by
  refine ⟨?_, ?_, ?_, ?_⟩
  · intro env req sid e hval hsid hfes hload
    unfold execute
    rw [hval, hsid]
    dsimp only
    rw [if_neg hfes, hload]
  · intro env req e hval hsid hcsv hload
    unfold execute
    rw [hval, hsid]
    dsimp only
    rw [if_neg hcsv, hload]
  · intro env req f e hbath herr
    have hm1 : resolveMetadata env req = none := by
      unfold resolveMetadata
      rw [hbath]
      cases hla : req.lat with
      | none => rfl
      | some la =>
        cases hlo : req.lon with
        | none => rfl
        | some lo =>
          dsimp only
          rw [herr la lo]
    have hm2 : resolveMetadata ⟨env.loadForStation, env.loadForLocation,
        some (fun _ _ => Except.ok none), env.astroCoeffs, env.datumOffsets⟩ req
        = none := by
      unfold resolveMetadata
      dsimp only
      cases hla : req.lat with
      | none => rfl
      | some la =>
        cases hlo : req.lon with
        | none => rfl
        | some lo => rfl
    refine ⟨?_, ?_, ?_⟩
    · unfold execute
      simp only [hm1, hm2]
      rfl
    · intro resp h
      unfold execute at h
      simp only [hm1] at h
      cases hv : req.validate with
      | error e2 =>
        rw [hv] at h
        exact Except.noConfusion h
      | ok u =>
        rw [hv] at h
        dsimp only at h
        cases hsid : req.stationID with
        | some sid =>
          rw [hsid] at h
          dsimp only at h
          by_cases hf : req.source = "fes"
          · rw [if_pos hf] at h
            exact Except.noConfusion h
          · rw [if_neg hf] at h
            cases hload : env.loadForStation sid with
            | error e2 =>
              rw [hload] at h
              exact Except.noConfusion h
            | ok cs =>
              rw [hload] at h
              simp only [Except.ok.injEq] at h
              rw [← h]
              exact executeRest_no_metadata_fields env req "csv" cs
        | none =>
          rw [hsid] at h
          dsimp only at h
          by_cases hf : req.source = "csv"
          · rw [if_pos hf] at h
            exact Except.noConfusion h
          · rw [if_neg hf] at h
            cases hload : env.loadForLocation (req.lat.getD 0) (req.lon.getD 0) with
            | error e2 =>
              rw [hload] at h
              exact Except.noConfusion h
            | ok cs =>
              rw [hload] at h
              simp only [Except.ok.injEq] at h
              rw [← h]
              exact executeRest_no_metadata_fields env req "fes" cs
    · intro cs hval hsid hcsv hload
      unfold execute
      rw [hval, hsid]
      dsimp only
      rw [if_neg hcsv, hload, hm1]
  · intro g dg geoid lat lon e herr
    unfold getMetadata
    dsimp only
    rw [herr]

/-- Witness for C8: the failing station loader makes `Execute` return the load
error for a concrete valid station request. -/
theorem execute_error_handling_witness :
    exampleC8StationReq.validate = Except.ok () ∧
    execute exampleC8Env exampleC8StationReq =
      Except.error
        ("failed to load constituents for station: " ++ "station file missing") := by
  have hval : exampleC8StationReq.validate = Except.ok () := by
    unfold PredictionRequest.validate exampleC8StationReq
    norm_num
    intro h
    exact absurd h (by decide)
  refine ⟨hval, ?_⟩
  exact execute_error_handling.1 exampleC8Env exampleC8StationReq "TK001"
    "station file missing" hval rfl (by decide) rfl

end Tides
